import Mathlib

/-!
Shallow embedding of the resilient TickTick API client
(src/ticktick_mcp/src/ticktick_client.py) and proofs about its retry,
verification and batching discipline.

JSON-like Python values are modelled by the inductive type JVal; Python
dictionaries become association lists with Python dict semantics
(assignment replaces the value of an existing key in place, otherwise
appends; pop removes the key).  The network is modelled by an oracle
environment TEnv: a stream of HTTP outcomes for resource calls, a stream
of token-endpoint outcomes for the refresher, the mutable credential
state, a log of every HTTP request issued (with the bearer token current
at send time) and a log of every credential-store save.
-/

namespace TickTickSpec

/-- JSON-like value as produced by parsing a response body; also models
the plain Python values (str, int, bool, None, dict, list) the client
passes around. -/
inductive JVal where
  | str (s : String)
  | num (n : Int)
  | bool (b : Bool)
  | null
  | obj (fields : List (String × JVal))
  | arr (elems : List JVal)

/-- Membership of a pattern at the head of a character list. -/
def subAt : List Char → List Char → Bool
  | [], _ => true
  | _ :: _, [] => false
  | a :: as, b :: bs => a == b && subAt as bs

/-- Occurrence of a pattern anywhere in a character list. -/
def hasSubList (pat : List Char) : List Char → Bool
  | [] => subAt pat []
  | c :: rest => subAt pat (c :: rest) || hasSubList pat rest

/-- Python substring test: pat in s. -/
def strContains (s pat : String) : Bool := hasSubList pat.data s.data

/-- Python str.lower() (ASCII case folding suffices for the messages used). -/
def lowerStr (s : String) : String := String.mk (s.data.map Char.toLower)

/-- Python str.strip() (the client only ever strips ordinary spaces). -/
def pyStrip (s : String) : String :=
  String.mk (((s.data.dropWhile (fun c => c == ' ')).reverse.dropWhile
    (fun c => c == ' ')).reverse)

/-- Python str.strip(c) for one given character, used by tag formatting. -/
def stripChar (c : Char) (s : String) : String :=
  String.mk (((s.data.dropWhile (fun d => d == c)).reverse.dropWhile
    (fun d => d == c)).reverse)

/-- Helper of pySplit accumulating the current word in reverse. -/
def splitWsAux : List Char → List Char → List String
  | [], acc => if acc.isEmpty then [] else [String.mk acc.reverse]
  | c :: rest, acc =>
    if c == ' ' then
      if acc.isEmpty then splitWsAux rest []
      else String.mk acc.reverse :: splitWsAux rest []
    else splitWsAux rest (c :: acc)

/-- Python str.split() with no argument: split on runs of whitespace
(the titles handled here only contain spaces). -/
def pySplit (s : String) : List String := splitWsAux s.data []

/-- Python " ".join(l). -/
def joinSp : List String → String
  | [] => ""
  | [x] => x
  | x :: y :: rest => x ++ " " ++ joinSp (y :: rest)

/-- Helper of dedupFirst carrying the set of already seen strings. -/
def dedupAux : List String → List String → List String
  | [], _ => []
  | x :: rest, seen =>
    if seen.contains x then dedupAux rest seen
    else x :: dedupAux rest (x :: seen)

/-- Python list(set(l)): deduplication; the iteration order of a Python
set is implementation defined, modelled as first-occurrence order. -/
def dedupFirst (l : List String) : List String := dedupAux l []

/-- Python s.capitalize() restricted to making the first character upper
case, which is all the client needs. -/
def capFirst (s : String) : String :=
  match s.data with
  | [] => ""
  | c :: cs => String.mk (c.toUpper :: cs)

/-- Python w.startswith("#"). -/
def startsHash (w : String) : Bool :=
  match w.data with
  | c :: _ => c == '#'
  | [] => false

/-- Python dict lookup d.get(key) on an association list (first match). -/
def lookupF : List (String × JVal) → String → Option JVal
  | [], _ => none
  | (k, v) :: rest, key => if k == key then some v else lookupF rest key

/-- Python dict assignment d[key] = val: replaces the value of an existing
key in place, otherwise appends the new key at the end. -/
def insertF : List (String × JVal) → String → JVal → List (String × JVal)
  | [], key, val => [(key, val)]
  | (k, v) :: rest, key, val =>
    if k == key then (k, val) :: rest else (k, v) :: insertF rest key val

/-- Python d.pop(key): removes the key.  Dictionaries built by the client
have unique keys, so removing every occurrence is faithful. -/
def eraseF (fs : List (String × JVal)) (key : String) : List (String × JVal) :=
  fs.filter (fun p => p.1 != key)

/-- Python key in d for a dictionary. -/
def hasKeyF (fs : List (String × JVal)) (key : String) : Bool :=
  (lookupF fs key).isSome

mutual
/-- json.dumps of a parsed value (only reached inside detail strings no
claim inspects; the exact separator convention is immaterial). -/
def dumpJ : JVal → String
  | .str s => "\"" ++ s ++ "\""
  | .num n => toString n
  | .bool true => "true"
  | .bool false => "false"
  | .null => "null"
  | .obj fs => "\x7b" ++ dumpFields fs ++ "\x7d"
  | .arr xs => "[" ++ dumpElems xs ++ "]"

/-- Field list part of dumpJ. -/
def dumpFields : List (String × JVal) → String
  | [] => ""
  | [(k, v)] => "\"" ++ k ++ "\": " ++ dumpJ v
  | (k, v) :: p :: rest => "\"" ++ k ++ "\": " ++ dumpJ v ++ ", " ++ dumpFields (p :: rest)

/-- Element list part of dumpJ. -/
def dumpElems : List JVal → String
  | [] => ""
  | [v] => dumpJ v
  | v :: p :: rest => dumpJ v ++ ", " ++ dumpElems (p :: rest)
end

/-- Python str(v): identity on strings, repr of the other values (dict and
list rendering delegated to the dumps printer; no claim inspects it). -/
def jvalStrOf : JVal → String
  | .str s => s
  | .num n => toString n
  | .bool true => "True"
  | .bool false => "False"
  | .null => "None"
  | .obj fs => dumpJ (.obj fs)
  | .arr xs => dumpJ (.arr xs)

/-- Python truthiness of a value. -/
def truthyJ : JVal → Bool
  | .str s => !s.isEmpty
  | .num n => n != 0
  | .bool b => b
  | .null => false
  | .obj fs => !fs.isEmpty
  | .arr xs => !xs.isEmpty

/-- Python x is None test, with None modelled as JVal.null. -/
def isNullJ : JVal → Bool
  | .null => true
  | _ => false

/-- Python key in x where x may be a dict, a list or a string. -/
def pyIn (key : String) : JVal → Bool
  | .obj fs => hasKeyF fs key
  | .arr xs => xs.any (fun x => match x with | .str s => s == key | _ => false)
  | .str s => strContains s key
  | _ => false

/-- Python x.get(key, default) for dict-shaped values. -/
def pyGet (j : JVal) (key : String) (default : JVal) : JVal :=
  match j with
  | .obj fs => (lookupF fs key).getD default
  | _ => default

/-- Python truthiness of an optional string (None and "" are falsy). -/
def truthyS : Option String → Bool
  | none => false
  | some s => !s.isEmpty

/-- Whether a value is a dict. -/
def isObjJ : JVal → Bool
  | .obj _ => true
  | _ => false

/-- Python len for the shapes the client measures. -/
def pyLen : JVal → Nat
  | .arr xs => xs.length
  | .obj fs => fs.length
  | .str s => s.length
  | _ => 0

/-- OAuth2 credential state of the client; None models a missing value,
an empty string a set-but-empty one (both falsy in Python). -/
structure Creds where
  client_id : Option String
  client_secret : Option String
  access_token : Option String
  refresh_token : Option String

/-- Parsed body of a token-endpoint response; a None field models an
absent key (tokens.get returns None). -/
structure TokenResp where
  access_token : Option String
  refresh_token : Option String

/-- One HTTP response: numeric status, the parsed JSON body when
response.json() succeeds (none models a JSONDecodeError), the raw body
text, and the Retry-After header when present. -/
structure HttpResponse where
  status : Nat
  jsonBody : Option JVal
  text : String
  retryAfter : Option String

/-- Outcome of issuing one HTTP request: a response, or one of the
exception classes the client catches (each carrying str(e)). -/
inductive HttpEvent where
  | resp (r : HttpResponse)
  | timeoutEv (msg : String)
  | connErrorEv (msg : String)
  | reqExcEv (msg : String)
  | otherExcEv (msg : String)

/-- Log entry for one issued HTTP request: method, endpoint, the bearer
token current at send time, and the JSON body sent. -/
structure SentReq where
  method : String
  endpoint : String
  bearer : Option String
  body : Option JVal

/-- Oracle environment threading all client state: the stream of HTTP
outcomes for resource calls, the stream of token-endpoint outcomes, the
credential state, the log of issued requests and the log of
credential-store saves. -/
structure TEnv where
  httpTrace : Nat → HttpEvent
  httpIdx : Nat
  tokenTrace : Nat → Option TokenResp
  tokenIdx : Nat
  creds : Creds
  sent : List SentReq
  saved : List TokenResp

/-- Issue one HTTP request: consume the next event of the stream and log
the request together with the bearer token current at send time. -/
def sendReq (env : TEnv) (method endpoint : String) (data : Option JVal) :
    HttpEvent × TEnv :=
  (env.httpTrace env.httpIdx,
   { env with
     httpIdx := env.httpIdx + 1,
     sent := env.sent ++ [{ method := method, endpoint := endpoint,
                            bearer := env.creds.access_token, body := data }] })

/-- TickTickClient._refresh_access_token: requires refresh_token plus both
client credentials, otherwise returns False with no network call; on a
token-endpoint success updates access_token (and refresh_token when a new
one is issued) and saves the tokens; on a RequestException returns False. -/
def refresh_access_token (env : TEnv) : Bool × TEnv :=
  if !truthyS env.creds.refresh_token then (false, env)
  else if !truthyS env.creds.client_id || !truthyS env.creds.client_secret then
    (false, env)
  else
    match env.tokenTrace env.tokenIdx with
    | none => (false, { env with tokenIdx := env.tokenIdx + 1 })
    | some tokens =>
      (true,
       { env with
         tokenIdx := env.tokenIdx + 1,
         creds := { env.creds with
                    access_token := tokens.access_token,
                    refresh_token := match tokens.refresh_token with
                      | some r => some r
                      | none => env.creds.refresh_token },
         saved := env.saved ++ [tokens] })

/-- TickTickClient._extract_error_details. -/
def extract_error_details (r : HttpResponse) : JVal :=
  match r.jsonBody with
  | some j =>
    match j with
    | .obj fs =>
      match lookupF fs "error" with
      | some v => v
      | none => .str (dumpJ (.obj fs))
    | other => .str (dumpJ other)
  | none =>
    if r.text == "" then
      .str (match r.status with
            | 400 => "Bad Request"
            | 401 => "Unauthorized"
            | 403 => "Forbidden"
            | 404 => "Not Found"
            | 405 => "Method Not Allowed"
            | 409 => "Conflict"
            | 429 => "Too Many Requests"
            | 500 => "Internal Server Error"
            | 502 => "Bad Gateway"
            | 503 => "Service Unavailable"
            | 504 => "Gateway Timeout"
            | s => "HTTP " ++ toString s)
    else .str r.text

/-- Failure dictionary of the 401 branch when the token refresh fails. -/
def auth_failed_obj : JVal :=
  .obj [("error", .str "Authentication failed. Your access token is expired or invalid."),
        ("error_code", .str "AUTH_FAILED"),
        ("status", .str "failed"),
        ("resolution", .str "Please run \x27uv run -m ticktick_mcp.cli auth\x27 to reauthenticate.")]

/-- Resource kind inferred from the endpoint shape, for the 404 message. -/
def resourceType (endpoint : String) : String :=
  if strContains endpoint "/task/" then "task"
  else if strContains endpoint "/project/" then "project"
  else "resource"

/-- Failure dictionary of the 404 branch. -/
def not_found_obj (endpoint : String) (r : HttpResponse) : JVal :=
  .obj [("error", .str (capFirst (resourceType endpoint) ++
           " not found. It may have been deleted or never existed.")),
        ("error_code", .str "NOT_FOUND"),
        ("status", .str "failed"),
        ("http_status", .num 404),
        ("details", extract_error_details r)]

/-- Failure dictionary of the 429 branch. -/
def rate_limited_obj (r : HttpResponse) : JVal :=
  let retry_after := r.retryAfter.getD "60"
  .obj [("error", .str ("TickTick API rate limit exceeded. Please try again after " ++
           retry_after ++ " seconds.")),
        ("error_code", .str "RATE_LIMITED"),
        ("status", .str "failed"),
        ("http_status", .num 429),
        ("retry_after", .str retry_after),
        ("details", extract_error_details r)]

/-- Transient statuses of the 5xx branch: status in (502, 503, 504). -/
def transientStatus (s : Nat) : Bool := s == 502 || s == 503 || s == 504

/-- Failure dictionary of the 5xx branch. -/
def server_error_obj (r : HttpResponse) : JVal :=
  .obj [("error", .str ("TickTick server error (HTTP " ++ toString r.status ++
           "). Please try again later.")),
        ("error_code", .str "SERVER_ERROR"),
        ("status", .str "failed"),
        ("http_status", .num r.status),
        ("details", extract_error_details r),
        ("is_transient", .bool (transientStatus r.status))]

/-- Status to error-code map of the remaining 4xx branch. -/
def clientErrorCode (s : Nat) : String :=
  if s == 400 then "BAD_REQUEST"
  else if s == 403 then "FORBIDDEN"
  else if s == 405 then "METHOD_NOT_ALLOWED"
  else if s == 409 then "CONFLICT"
  else if s == 413 then "PAYLOAD_TOO_LARGE"
  else if s == 415 then "UNSUPPORTED_MEDIA_TYPE"
  else if s == 422 then "VALIDATION_ERROR"
  else "CLIENT_ERROR_" ++ toString s

/-- Failure dictionary of the remaining 4xx branch. -/
def client_error_obj (r : HttpResponse) : JVal :=
  .obj [("error", .str ("Request error: " ++ jvalStrOf (extract_error_details r))),
        ("error_code", .str (clientErrorCode r.status)),
        ("status", .str "failed"),
        ("http_status", .num r.status),
        ("details", extract_error_details r)]

/-- Success dictionary of the 204 branch. -/
def success_204_obj : JVal :=
  .obj [("success", .bool true),
        ("status", .str "success"),
        ("message", .str "Operation completed successfully"),
        ("http_status", .num 204)]

/-- Failure dictionary returned when a 2xx body fails to parse and the
body text is non-empty. -/
def invalid_format_obj (r : HttpResponse) : JVal :=
  .obj [("error", .str "Invalid JSON response from TickTick API"),
        ("error_code", .str "INVALID_RESPONSE_FORMAT"),
        ("status", .str "warning"),
        ("http_status", .num r.status),
        ("raw_response", .str (String.mk (r.text.data.take 1000)))]

/-- Success dictionary returned when a 2xx body fails to parse and the
body text is empty. -/
def empty_success_obj (r : HttpResponse) : JVal :=
  .obj [("success", .bool true),
        ("status", .str "success"),
        ("message", .str "Operation completed successfully"),
        ("http_status", .num r.status)]

/-- Failure dictionary of the requests.exceptions.Timeout handler. -/
def timeout_error_obj (timeout : Nat) (msg : String) : JVal :=
  .obj [("error", .str ("Request timed out after " ++ toString timeout ++
           " seconds: " ++ msg)),
        ("error_code", .str "TIMEOUT"),
        ("status", .str "failed"),
        ("is_transient", .bool true)]

/-- Failure dictionary of the requests.exceptions.ConnectionError handler. -/
def connection_error_obj (msg : String) : JVal :=
  .obj [("error", .str "Unable to connect to TickTick API. Please check your internet connection."),
        ("error_code", .str "CONNECTION_ERROR"),
        ("status", .str "failed"),
        ("is_transient", .bool true),
        ("details", .str msg)]

/-- Failure dictionary of the requests.exceptions.RequestException handler. -/
def request_failed_obj (msg : String) : JVal :=
  .obj [("error", .str ("API request failed: " ++ msg)),
        ("error_code", .str "REQUEST_FAILED"),
        ("status", .str "failed"),
        ("details", .str msg)]

/-- Failure dictionary of the final Exception handler. -/
def unexpected_error_obj (msg : String) : JVal :=
  .obj [("error", .str ("Unexpected error during API request: " ++ msg)),
        ("error_code", .str "UNEXPECTED_ERROR"),
        ("status", .str "failed"),
        ("details", .str msg)]

/-- Decision taken on a response by the status cascade CASE 2 to CASE 7 of
_make_request; retryTransient carries the SERVER_ERROR dictionary used
when no retry is allowed. -/
inductive Dispatch where
  | done (result : JVal)
  | retryTransient (fallback : JVal)

/-- Status cascade of _make_request (CASE 2 to CASE 7), applied to the
response at hand after the 401 branch has been dealt with. -/
def classify_response (endpoint : String) (r : HttpResponse) : Dispatch :=
  if r.status == 404 then .done (not_found_obj endpoint r)
  else if r.status == 429 then .done (rate_limited_obj r)
  else if 500 ≤ r.status then
    let o := server_error_obj r
    if transientStatus r.status then .retryTransient o else .done o
  else if 400 ≤ r.status then .done (client_error_obj r)
  else if r.status == 204 then .done success_204_obj
  else
    match r.jsonBody with
    | some v =>
      .done (match v with
             | .obj fs =>
               if hasKeyF fs "status" then .obj fs
               else .obj (insertF fs "status" (.str "success"))
             | other => other)
    | none =>
      if r.text == "" then .done (empty_success_obj r)
      else .done (invalid_format_obj r)

/-- One invocation of the body of _make_request without the transient
retry: issue the request, run the 401 refresh-and-reissue branch, then
the status cascade.  A result inl is final; a result inr signals a
transient 5xx (carrying the SERVER_ERROR dictionary that is returned
when no retry is allowed, and the environment after this invocation). -/
def make_request_step (method endpoint : String) (data : Option JVal) (timeout : Nat)
    (env0 : TEnv) : (JVal × TEnv) ⊕ (JVal × TEnv) :=
  match sendReq env0 method endpoint data with
  | (.timeoutEv msg, env1) => .inl (timeout_error_obj timeout msg, env1)
  | (.connErrorEv msg, env1) => .inl (connection_error_obj msg, env1)
  | (.reqExcEv msg, env1) => .inl (request_failed_obj msg, env1)
  | (.otherExcEv msg, env1) => .inl (unexpected_error_obj msg, env1)
  | (.resp r1, env1) =>
    if r1.status == 401 then
      match refresh_access_token env1 with
      | (true, env2) =>
        match sendReq env2 method endpoint data with
        | (.timeoutEv msg, env3) => .inl (timeout_error_obj timeout msg, env3)
        | (.connErrorEv msg, env3) => .inl (connection_error_obj msg, env3)
        | (.reqExcEv msg, env3) => .inl (request_failed_obj msg, env3)
        | (.otherExcEv msg, env3) => .inl (unexpected_error_obj msg, env3)
        | (.resp r2, env3) =>
          match classify_response endpoint r2 with
          | .done j => .inl (j, env3)
          | .retryTransient fallback => .inr (fallback, env3)
      | (false, env2) => .inl (auth_failed_obj, env2)
    else
      match classify_response endpoint r1 with
      | .done j => .inl (j, env1)
      | .retryTransient fallback => .inr (fallback, env1)

/-- TickTickClient._make_request with the retry_on_error flag expressed as
remaining transient-retry fuel: True corresponds to fuel 1, the recursive
self call with retry_on_error=False to fuel 0.  A transient 5xx with fuel
left re-issues the whole invocation once with the fuel spent; with no
fuel left it returns the SERVER_ERROR dictionary. -/
def make_requestGo (method endpoint : String) (data : Option JVal) (timeout : Nat) :
    Nat → TEnv → JVal × TEnv
  | 0, env =>
    match make_request_step method endpoint data timeout env with
    | .inl res => res
    | .inr res => res
  | Nat.succ m, env =>
    match make_request_step method endpoint data timeout env with
    | .inl res => res
    | .inr (_, env1) => make_requestGo method endpoint data timeout m env1

/-- TickTickClient._make_request(method, endpoint, data, timeout,
retry_on_error): the flag maps to the transient-retry fuel. -/
def make_request (method endpoint : String) (data : Option JVal) (timeout : Nat)
    (retry_on_error : Bool) (env : TEnv) : JVal × TEnv :=
  make_requestGo method endpoint data timeout (cond retry_on_error 1 0) env

/-- TickTickClient.get_project. -/
def get_project (project_id : String) (env : TEnv) : JVal × TEnv :=
  make_request "GET" ("/project/" ++ project_id) none 30 true env

/-- TickTickClient.get_task. -/
def get_task (project_id task_id : String) (env : TEnv) : JVal × TEnv :=
  make_request "GET" ("/project/" ++ project_id ++ "/task/" ++ task_id) none 30 true env

/-- A response value carried by make_request results has is_transient
false when the key is absent; this reads the flag the way a consumer of
the RequestResult taxonomy does. -/
def is_transient_of (j : JVal) : Bool :=
  match j with
  | .obj fs =>
    match lookupF fs "is_transient" with
    | some (.bool b) => b
    | _ => false
  | _ => false

/-- Server-managed fields stripped from an update body (fields_to_remove
of update_task). -/
def fields_to_remove : List String :=
  ["createdTime", "completedTime", "modifiedTime", "etag", "timeZone", "sortOrder"]

/-- Hashtag string built from a tag list: "#" ++ tag.strip("#") joined by
spaces. -/
def tagString (xs : List JVal) : String :=
  joinSp (xs.map (fun t => "#" ++ stripChar '#' (jvalStrOf t)))

/-- Body-building part of TickTickClient.update_task, split out of the
function at the final POST: given the fetched current task it either
short-circuits with an error value (inl) or yields the dictionary written
upstream (inr).  Mirrors lines 509 to 592 of the source: full copy of the
current task, forced id and projectId, title and tag merging, overwrite
of each explicitly supplied field, then removal of the server-managed
fields. -/
def update_task_data (current_task : JVal) (task_id project_id : String)
    (title content : Option String) (priority : Option Int)
    (start_date due_date repeat_flag : Option String)
    (tags : Option (List String)) : JVal ⊕ List (String × JVal) :=
  if pyIn "error" current_task then .inl current_task
  else
    match current_task with
    | .obj fs =>
      let data := insertF fs "id" (.str task_id)
      let data := insertF data "projectId" (.str project_id)
      let data :=
        if title.isSome || tags.isSome then
          let new_title := match title with
            | some t => t
            | none => jvalStrOf (pyGet (.obj fs) "title" (.str ""))
          let new_title := match tags with
            | some (tg :: tgs) =>
              let pair :=
                if title.isNone && strContains new_title "#" then
                  let words := pySplit new_title
                  let existing_tags := words.filter startsHash
                  let non_tag_words := words.filter (fun w => !startsHash w)
                  (if !non_tag_words.isEmpty then joinSp non_tag_words else new_title,
                   existing_tags)
                else (new_title, ([] : List String))
              let formatted_tags := (tg :: tgs).map (fun t => "#" ++ stripChar '#' t)
              let all_tags := dedupFirst (pair.2 ++ formatted_tags)
              pair.1 ++ " " ++ joinSp all_tags
            | _ => new_title
          insertF data "title" (.str (pyStrip new_title))
        else data
      let data := match content with
        | some c => insertF data "content" (.str c) | none => data
      let data := match priority with
        | some p => insertF data "priority" (.num p) | none => data
      let data := match start_date with
        | some v => insertF data "startDate" (.str v) | none => data
      let data := match due_date with
        | some v => insertF data "dueDate" (.str v) | none => data
      let data := match repeat_flag with
        | some v => insertF data "repeatFlag" (.str v) | none => data
      let data := fields_to_remove.foldl eraseF data
      .inr data
    | _ =>
      .inl (.obj [("error", .str "Failed to update task: unexpected response shape")])

/-- TickTickClient.update_task: fetch the current task (returning its
error unchanged when the fetch failed), build the preserved update body,
then POST it. -/
def update_task (task_id project_id : String) (title content : Option String)
    (priority : Option Int) (start_date due_date repeat_flag : Option String)
    (tags : Option (List String)) (env : TEnv) : JVal × TEnv :=
  match get_task project_id task_id env with
  | (current_task, env1) =>
    match update_task_data current_task task_id project_id title content priority
        start_date due_date repeat_flag tags with
    | .inl e => (e, env1)
    | .inr data =>
      make_request "POST" ("/task/" ++ task_id) (some (.obj data)) 30 true env1

/-- TickTickClient.create_task (arguments as plain values, with
JVal.null standing for Python None). -/
def create_task (title project_id content start_date due_date priority
    is_all_day repeat_flag tags : JVal) (env : TEnv) : JVal × TEnv :=
  let title := match tags with
    | .arr (tg :: tgs) => JVal.str (jvalStrOf title ++ " " ++ tagString (tg :: tgs))
    | _ => title
  let data := [("title", title), ("projectId", project_id)]
  let data := if truthyJ content then insertF data "content" content else data
  let data := if truthyJ start_date then insertF data "startDate" start_date else data
  let data := if truthyJ due_date then insertF data "dueDate" due_date else data
  let data := if !isNullJ priority then insertF data "priority" priority else data
  let data := if !isNullJ is_all_day then insertF data "isAllDay" is_all_day else data
  let data := if truthyJ repeat_flag then insertF data "repeatFlag" repeat_flag else data
  make_request "POST" "/task" (some (.obj data)) 30 true env

/-- Failure dictionary for a batch input that is not a non-empty list. -/
def invalid_input_obj : JVal :=
  .obj [("error", .str "Invalid input: tasks must be a non-empty list of task dictionaries"),
        ("error_code", .str "INVALID_INPUT"),
        ("status", .str "failed")]

/-- Failure dictionary for a non-dictionary batch item at position i. -/
def invalid_format_item_obj (i : Nat) : JVal :=
  .obj [("error", .str ("Invalid task at position " ++ toString i ++ ": must be a dictionary")),
        ("error_code", .str "INVALID_TASK_FORMAT"),
        ("status", .str "failed")]

/-- Failure dictionary for a batch item missing a required field. -/
def missing_field_obj (i : Nat) (field : String) : JVal :=
  .obj [("error", .str ("Invalid task at position " ++ toString i ++
          ": missing required field \x27" ++ field ++ "\x27")),
        ("error_code", .str "MISSING_REQUIRED_FIELD"),
        ("status", .str "failed")]

/-- Pre-validation loop of create_tasks: first offending item wins. -/
def validate_tasks : List JVal → Nat → Option JVal
  | [], _ => none
  | t :: rest, i =>
    match t with
    | .obj fs =>
      if !hasKeyF fs "title" then some (missing_field_obj i "title")
      else if !hasKeyF fs "project_id" then some (missing_field_obj i "project_id")
      else validate_tasks rest (i + 1)
    | _ => some (invalid_format_item_obj i)

/-- Per-item formatting of the bulk-create body. -/
def format_task (t : JVal) : JVal :=
  let formatted := [("title", pyGet t "title" .null),
                    ("projectId", pyGet t "project_id" .null)]
  let formatted := match pyGet t "tags" .null with
    | .arr (tg :: tgs) =>
      insertF formatted "title"
        (.str (jvalStrOf (pyGet t "title" .null) ++ " " ++ tagString (tg :: tgs)))
    | _ => formatted
  let formatted := if pyIn "content" t && truthyJ (pyGet t "content" .null) then
      insertF formatted "content" (pyGet t "content" .null) else formatted
  let formatted := if pyIn "start_date" t && truthyJ (pyGet t "start_date" .null) then
      insertF formatted "startDate" (pyGet t "start_date" .null) else formatted
  let formatted := if pyIn "due_date" t && truthyJ (pyGet t "due_date" .null) then
      insertF formatted "dueDate" (pyGet t "due_date" .null) else formatted
  let formatted := if pyIn "priority" t then
      insertF formatted "priority" (pyGet t "priority" .null) else formatted
  let formatted := if pyIn "repeat_flag" t && truthyJ (pyGet t "repeat_flag" .null) then
      insertF formatted "repeatFlag" (pyGet t "repeat_flag" .null) else formatted
  let formatted := if pyIn "is_all_day" t then
      insertF formatted "isAllDay" (pyGet t "is_all_day" .null) else formatted
  .obj formatted

/-- Python response.get("status") != "failed" negated: whether the
status field holds exactly the string "failed". -/
def statusIsFailed (j : JVal) : Bool :=
  match pyGet j "status" .null with
  | .str s => s == "failed"
  | _ => false

/-- Sequential fallback loop of create_tasks: one create_task per item in
input order, tagging each failed result with its index and input, and
counting successes. -/
def create_tasks_fallback : List JVal → Nat → TEnv → List JVal × Nat × TEnv
  | [], _, env => ([], 0, env)
  | t :: rest, i, env =>
    match create_task (pyGet t "title" .null) (pyGet t "project_id" .null)
        (pyGet t "content" .null) (pyGet t "start_date" .null)
        (pyGet t "due_date" .null) (pyGet t "priority" (.num 0))
        (pyGet t "is_all_day" (.bool false)) (pyGet t "repeat_flag" .null)
        (pyGet t "tags" .null) env with
    | (result, env1) =>
      let entry :=
        if pyIn "error" result then
          match result with
          | .obj fs => JVal.obj (insertF (insertF fs "task_index" (.num i)) "task_data" t)
          | other => other
        else result
      match create_tasks_fallback rest (i + 1) env1 with
      | (entries, cnt, env2) =>
        (entry :: entries, (if pyIn "error" result then 0 else 1) + cnt, env2)

/-- TickTickClient.create_tasks: pre-validation, one bulk attempt, then
the sequential fallback with aggregated status and counts. -/
def create_tasks (tasks : JVal) (env : TEnv) : JVal × TEnv :=
  match tasks with
  | .arr items =>
    if items.isEmpty then (invalid_input_obj, env)
    else
      match validate_tasks items 0 with
      | some e => (e, env)
      | none =>
        let formatted_tasks := items.map format_task
        let batch_data : JVal := .obj [("add", .arr formatted_tasks)]
        match make_request "POST" "/batch/task" (some batch_data) 30 true env with
        | (response, env1) =>
          if !pyIn "error" response && !statusIsFailed response then
            let created_tasks := pyGet response "add" (.arr [])
            (.obj [("status", .str "success"),
                   ("message", .str ("Successfully created " ++
                     toString (pyLen created_tasks) ++ " tasks in batch")),
                   ("tasks", created_tasks)], env1)
          else
            match create_tasks_fallback items 0 env1 with
            | (results, successful_count, env2) =>
              (.obj [("status", .str (if successful_count < items.length
                        then "partial" else "success")),
                     ("message", .str ("Created " ++ toString successful_count ++
                       " out of " ++ toString items.length ++ " tasks")),
                     ("tasks", .arr results),
                     ("successful_count", .num successful_count),
                     ("total_count", .num items.length)], env2)
  | _ => (invalid_input_obj, env)

/-- Recoverable-error substrings of delete_task. -/
def recoverable_errors : List String :=
  ["timeout", "rate limit", "server error", "500", "503"]

/-- Substring match of the recoverable patterns against the lowercased
error message. -/
def isRecoverable (msg : String) : Bool :=
  recoverable_errors.any (fun e => strContains (lowerStr msg) e)

/-- Failure dictionary of the delete pre-check when the project fetch
errored. -/
def project_not_found_obj (project : JVal) : JVal :=
  .obj [("error", .str ("Cannot delete task: Project not found - " ++
          jvalStrOf (pyGet project "error" (.str "")))),
        ("error_code", .str "PROJECT_NOT_FOUND"),
        ("status", .str "failed"),
        ("http_status", .num 404)]

/-- Failure dictionary of the delete pre-check when the task fetch
errored: TASK_NOT_FOUND only when the message contains "404". -/
def task_precheck_err_obj (task : JVal) : JVal :=
  let is404 := strContains (jvalStrOf (pyGet task "error" (.str ""))) "404"
  .obj [("error", .str ("Cannot delete task: " ++
          jvalStrOf (pyGet task "error" (.str "")))),
        ("error_code", .str (if is404 then "TASK_NOT_FOUND" else "TASK_FETCH_ERROR")),
        ("status", .str "failed"),
        ("http_status", .num (if is404 then 404 else 400))]

/-- Failure dictionary when the delete call errored unrecoverably. -/
def api_error_obj (result task_details : JVal) : JVal :=
  .obj [("error", .str ("API error while deleting task: " ++
          jvalStrOf (pyGet result "error" (.str "")))),
        ("error_code", .str "API_ERROR"),
        ("status", .str "failed"),
        ("task_details", task_details)]

/-- Confirmed-success dictionary of the post-delete verification. -/
def del_success_obj (task_details : JVal) : JVal :=
  .obj [("success", .bool true),
        ("status", .str "success"),
        ("message", .str ("Task \x27" ++
          jvalStrOf (pyGet task_details "title" (.str "")) ++ "\x27 deleted successfully")),
        ("task_details", task_details)]

/-- Warning dictionary when the post-delete verification errored without
a "404" in the message. -/
def del_warning_obj (verification task_details : JVal) : JVal :=
  .obj [("status", .str "warning"),
        ("message", .str ("Task deletion reported as successful, but verification failed: " ++
          jvalStrOf (pyGet verification "error" (.str "")))),
        ("task_details", task_details),
        ("requires_verification", .bool true)]

/-- Sync-delay dictionary when the task is still readable after the
delete. -/
def sync_delay_obj (task_details : JVal) : JVal :=
  .obj [("message", .str ("Task deletion processed successfully. The task may still be " ++
          "accessible via direct API for some time due to TickTick\x27s caching.")),
        ("warning_code", .str "DELETION_SYNC_DELAY"),
        ("status", .str "success"),
        ("has_sync_delay", .bool true),
        ("task_details", task_details)]

/-- One round of TickTickClient.delete_task without the retry: project
and task existence pre-checks, the DELETE call, and the read-after-delete
verification.  A result inl is final; a result inr signals a recoverable
delete error (carrying the API_ERROR dictionary returned when the retry
budget is exhausted, and the environment after this round). -/
def delete_task_step (project_id task_id : String) (env : TEnv) :
    (JVal × TEnv) ⊕ (JVal × TEnv) :=
  match get_project project_id env with
  | (project, env1) =>
    if pyIn "error" project then .inl (project_not_found_obj project, env1)
    else
      match get_task project_id task_id env1 with
      | (task, env2) =>
        if pyIn "error" task then .inl (task_precheck_err_obj task, env2)
        else
          let task_details : JVal :=
            .obj [("title", pyGet task "title" (.str "Unknown")),
                  ("id", .str task_id),
                  ("project_id", .str project_id),
                  ("project_name", pyGet project "name" (.str "Unknown Project"))]
          match make_request "DELETE"
              ("/project/" ++ project_id ++ "/task/" ++ task_id) none 30 true env2 with
          | (result, env3) =>
            if pyIn "error" result then
              if isRecoverable (jvalStrOf (pyGet result "error" (.str ""))) then
                .inr (api_error_obj result task_details, env3)
              else .inl (api_error_obj result task_details, env3)
            else
              match get_task project_id task_id env3 with
              | (verification, env4) =>
                if pyIn "error" verification &&
                    strContains (jvalStrOf (pyGet verification "error" (.str ""))) "404" then
                  .inl (del_success_obj task_details, env4)
                else if pyIn "error" verification then
                  .inl (del_warning_obj verification task_details, env4)
                else .inl (sync_delay_obj task_details, env4)

/-- TickTickClient.delete_task with retry_count as the remaining retry
budget: a recoverable delete error with budget left re-runs the whole
round with the budget decremented, otherwise the API_ERROR dictionary is
returned. -/
def delete_task (project_id task_id : String) : Nat → TEnv → JVal × TEnv
  | 0, env =>
    match delete_task_step project_id task_id env with
    | .inl res => res
    | .inr res => res
  | Nat.succ m, env =>
    match delete_task_step project_id task_id env with
    | .inl res => res
    | .inr (_, env3) => delete_task project_id task_id m env3

/-- Count of DELETE requests in a request log. -/
def countDel (l : List SentReq) : Nat :=
  (l.filter (fun s => s.method == "DELETE")).length

/-- An HTTP event that makes _make_request return after its single
request: any exception, or a response that is neither a 401 nor a
transient 5xx. -/
def oneShotE : HttpEvent → Prop
  | .resp r => r.status ≠ 401 ∧ transientStatus r.status = false
  | _ => True

/-- An HTTP event giving a plain successful 200 response whose dictionary
body has no error key. -/
def plainOkE : HttpEvent → Prop :=
  fun e => ∃ r fs, e = .resp r ∧ r.status = 200 ∧ r.jsonBody = some (.obj fs) ∧
    hasKeyF fs "error" = false

/-- Validity of one batch item: a dictionary with title and project_id. -/
def itemValid : JVal → Bool
  | .obj fs => hasKeyF fs "title" && hasKeyF fs "project_id"
  | _ => false

/-- The abort dictionary the pre-validation of create_tasks produces for
an invalid item at position i. -/
def invalidObjFor (t : JVal) (i : Nat) : JVal :=
  match t with
  | .obj fs =>
    if !hasKeyF fs "title" then missing_field_obj i "title"
    else missing_field_obj i "project_id"
  | _ => invalid_format_item_obj i

/-- Concrete credential state used by the witness environments. -/
def credsW : Creds :=
  { client_id := some "cid", client_secret := some "cs",
    access_token := some "tok0", refresh_token := some "rtok" }

/-- Concrete response builder used by the witness environments. -/
def respN (s : Nat) (b : Option JVal) (t : String) : HttpResponse :=
  { status := s, jsonBody := b, text := t, retryAfter := none }

/-- Concrete event: successful project fetch. -/
def projOkEv : HttpEvent := .resp (respN 200 (some (.obj [("name", .str "P")])) "x")

/-- Concrete event: successful task fetch or create. -/
def taskOkEv : HttpEvent := .resp (respN 200 (some (.obj [("title", .str "T")])) "x")

/-- Concrete event: a 404 response. -/
def nfEv : HttpEvent := .resp (respN 404 (some (.obj [("error", .str "nf")])) "x")

/-- Concrete event: successful delete call. -/
def delOkEv : HttpEvent := .resp (respN 200 (some (.obj [("ok", .bool true)])) "x")

/-- Concrete event: a plain 500 server error (non transient). -/
def ise500Ev : HttpEvent := .resp (respN 500 (some (.obj [("error", .str "ise")])) "x")

/-- Concrete environment over a given event stream, starting with fresh
logs and a token endpoint that always succeeds. -/
def mkEnv (tr : Nat → HttpEvent) : TEnv :=
  { httpTrace := tr, httpIdx := 0,
    tokenTrace := fun _ => some { access_token := some "tok1", refresh_token := none },
    tokenIdx := 0, creds := credsW, sent := [], saved := [] }

/-- Trace for the C1 counterexample: transient 503, then 401 on the
retried attempt, then 404. -/
def trC1 : Nat → HttpEvent
  | 0 => .resp (respN 503 (some (.obj [("error", .str "bad gateway")])) "x")
  | 1 => .resp (respN 401 (some (.obj [("error", .str "expired")])) "x")
  | _ => nfEv

/-- Trace for the C2 counterexample: 401, then transient 503 on the
re-issued attempt, then 500. -/
def trC2 : Nat → HttpEvent
  | 0 => .resp (respN 401 (some (.obj [("error", .str "expired")])) "x")
  | 1 => .resp (respN 503 (some (.obj [("error", .str "bad gateway")])) "x")
  | _ => ise500Ev

/-- Trace for the C4 failing input: pre-checks pass, delete succeeds,
verification fetch returns 404. -/
def trC4 : Nat → HttpEvent
  | 0 => projOkEv
  | 1 => taskOkEv
  | 2 => delOkEv
  | _ => nfEv

/-- Trace for the C5 failing input: project pre-check passes, task
pre-check returns 404. -/
def trC5 : Nat → HttpEvent
  | 0 => projOkEv
  | _ => nfEv

/-- Trace for the C6 witness: bulk endpoint answers 500, every
individual create succeeds. -/
def trC6 : Nat → HttpEvent
  | 0 => ise500Ev
  | _ => taskOkEv

/-- Trace for the C7 witness: pre-checks pass, delete errors with a 500,
the retried round succeeds and verifies. -/
def trC7 : Nat → HttpEvent
  | 0 => projOkEv
  | 1 => taskOkEv
  | 2 => ise500Ev
  | 3 => projOkEv
  | 4 => taskOkEv
  | 5 => delOkEv
  | _ => nfEv

/-- Environment component of a step outcome, for either variant. -/
def stepEnvOf : (JVal × TEnv) ⊕ (JVal × TEnv) → TEnv
  | .inl (_, e) => e
  | .inr (_, e) => e

/-- Building block for request-log entries in statements and proofs. -/
def mkReq (method endpoint : String) (bearer : Option String) (data : Option JVal) :
    SentReq :=
  { method := method, endpoint := endpoint, bearer := bearer, body := data }

/-- Environment after issuing exactly one HTTP request: the index of the
event stream moves on and the request is logged. -/
def advance1 (env : TEnv) (method endpoint : String) (data : Option JVal) : TEnv :=
  { env with httpIdx := env.httpIdx + 1,
             sent := env.sent ++ [{ method := method, endpoint := endpoint,
                                    bearer := env.creds.access_token, body := data }] }

/-- Trace for the C1 witness: transient 503 answered by a plain 404 on
the re-issued attempt. -/
def trC1w : Nat → HttpEvent
  | 0 => .resp (respN 503 (some (.obj [("error", .str "bad gateway")])) "x")
  | _ => nfEv

def env_after_auth_retry (env : TEnv) (tokens : TokenResp)
    (method endpoint : String) (data : Option JVal) : TEnv :=
  advance1
    { advance1 env method endpoint data with
      tokenIdx := env.tokenIdx + 1,
      creds := { env.creds with
                 access_token := tokens.access_token,
                 refresh_token := match tokens.refresh_token with
                   | some rt => some rt
                   | none => env.creds.refresh_token },
      saved := env.saved ++ [tokens] } method endpoint data

/-- Trace for the C2 witness: a 401 answered by a plain 404 on the
re-issued attempt. -/
def trC2w : Nat → HttpEvent
  | 0 => .resp (respN 401 (some (.obj [("error", .str "expired")])) "x")
  | _ => nfEv

/-- Trace for the C8 witness: a 200 response with an unparseable
non-empty body. -/
def trC8 : Nat → HttpEvent
  | _ => .resp (respN 200 none "garbage")

def updBody : JVal ⊕ List (String × JVal) → List (String × JVal)
  | .inr d => d
  | .inl _ => []

def optIns (d : List (String × JVal)) (k : String) : Option JVal → List (String × JVal)
  | some v => insertF d k v
  | none => d

def optInsTitle (d : List (String × JVal)) : Option String → List (String × JVal)
  | some t => insertF d "title" (.str (pyStrip t))
  | none => d

/-- Trace for the C10 witness: every request is answered by a 200 with a
dictionary body that has no status key. -/
def trC10 : Nat → HttpEvent := fun _ => taskOkEv

/- ------------------------------------------------------------------ -/
/- Helper lemmas about the dictionary and string operations.          -/
/- ------------------------------------------------------------------ -/

theorem lookupF_insertF_self (fs : List (String × JVal)) (k : String) (v : JVal) :
    lookupF (insertF fs k v) k = some v := by
  induction fs with
  | nil => simp [insertF, lookupF]
  | cons p rest ih =>
    by_cases h : p.1 == k
    · simp [insertF, lookupF, h]
    · simp [insertF, lookupF, h, ih]

theorem lookupF_insertF_ne (fs : List (String × JVal)) (k k2 : String) (v : JVal)
    (h : k2 ≠ k) : lookupF (insertF fs k v) k2 = lookupF fs k2 := by
  induction fs with
  | nil =>
    simp [insertF, lookupF]
    intro hc
    exact absurd hc.symm h
  | cons p rest ih =>
    by_cases hp : p.1 == k
    · have hpk : p.1 = k := by simpa using hp
      have hq : (p.1 == k2) = false := by
        subst hpk
        simpa using fun hc => h hc.symm
      simp [insertF, lookupF, hp, hq]
    · by_cases hq : p.1 == k2
      · simp [insertF, lookupF, hp, hq]
      · simp [insertF, lookupF, hp, hq, ih]

theorem insertF_lookup_eq (fs : List (String × JVal)) (k : String) (v : JVal)
    (h : lookupF fs k = some v) : insertF fs k v = fs := by
  induction fs with
  | nil => simp [lookupF] at h
  | cons p rest ih =>
    by_cases hp : p.1 == k
    · have hpk : p.1 = k := by simpa using hp
      simp [lookupF, hp] at h
      cases p with
      | mk k1 v1 =>
        simp at hpk
        subst hpk
        simp at h
        simp [insertF, h]
    · simp [lookupF, hp] at h
      simp [insertF, hp, ih h]

theorem lookupF_eraseF_self (fs : List (String × JVal)) (k : String) :
    lookupF (eraseF fs k) k = none := by
  induction fs with
  | nil => simp [eraseF, lookupF]
  | cons p rest ih =>
    by_cases hp : p.1 == k
    · have : (p.1 != k) = false := by simp [bne]; simpa using hp
      simpa [eraseF, List.filter, this] using ih
    · have : (p.1 != k) = true := by simp [bne]; simpa using hp
      simp [eraseF, List.filter, this, lookupF, hp]
      simpa [eraseF] using ih

theorem lookupF_eraseF_ne (fs : List (String × JVal)) (k k2 : String)
    (h : k2 ≠ k) : lookupF (eraseF fs k) k2 = lookupF fs k2 := by
  induction fs with
  | nil => simp [eraseF, lookupF]
  | cons p rest ih =>
    by_cases hp : p.1 == k
    · have hne : (p.1 == k2) = false := by
        have hpk : p.1 = k := by simpa using hp
        subst hpk
        simpa using fun hc => h hc.symm
      have : (p.1 != k) = false := by simp [bne]; simpa using hp
      simpa [eraseF, List.filter, this, lookupF, hne] using ih
    · have : (p.1 != k) = true := by simp [bne]; simpa using hp
      by_cases hq : p.1 == k2
      · simp [eraseF, List.filter, this, lookupF, hq]
      · simp [eraseF, List.filter, this, lookupF, hq]
        simpa [eraseF] using ih

theorem lookupF_eraseAll_ne (ks : List String) (fs : List (String × JVal))
    (k : String) (h : k ∉ ks) :
    lookupF (ks.foldl eraseF fs) k = lookupF fs k := by
  induction ks generalizing fs with
  | nil => simp
  | cons a rest ih =>
    have hk : k ∉ rest := fun hc => h (List.mem_cons_of_mem a hc)
    have hka : k ≠ a := fun hc => h (hc ▸ List.mem_cons_self a rest)
    simp only [List.foldl_cons]
    rw [ih (eraseF fs a) hk, lookupF_eraseF_ne fs a k hka]

theorem lookupF_eraseAll_mem (ks : List String) (fs : List (String × JVal))
    (k : String) (h : k ∈ ks) :
    lookupF (ks.foldl eraseF fs) k = none := by
  induction ks generalizing fs with
  | nil => simp at h
  | cons a rest ih =>
    by_cases hk : k ∈ rest
    · simpa using ih (eraseF fs a) hk
    · have hka : k = a := by
        rcases List.mem_cons.mp h with h1 | h2
        · exact h1
        · exact absurd h2 hk
      subst hka
      simp only [List.foldl_cons]
      rw [lookupF_eraseAll_ne rest (eraseF fs k) k hk, lookupF_eraseF_self]

theorem subAt_append (pat rest : List Char) : subAt pat (pat ++ rest) = true := by
  induction pat with
  | nil => simp [subAt]
  | cons c cs ih => simp [subAt, ih]

theorem hasSubList_nil (r : List Char) : hasSubList [] r = true := by
  cases r <;> simp [hasSubList, subAt]

theorem hasSubList_append (pat l r : List Char) :
    hasSubList pat (l ++ (pat ++ r)) = true := by
  induction l with
  | nil =>
    cases pat with
    | nil => simpa using hasSubList_nil r
    | cons c cs =>
      have h := subAt_append (c :: cs) r
      simp only [List.nil_append, hasSubList, List.cons_append, List.append_eq] at h ⊢
      rw [h]
      simp
  | cons c cs ih =>
    simp only [List.cons_append, hasSubList, List.append_eq]
    rw [ih]
    simp

theorem strContains_middle (a x b : String) :
    strContains (a ++ x ++ b) x = true := by
  simp only [strContains, String.data_append, List.append_assoc]
  exact hasSubList_append x.data a.data b.data

theorem hasKeyF_insertF_ne (fs : List (String × JVal)) (k k2 : String) (v : JVal)
    (h : k2 ≠ k) : hasKeyF (insertF fs k v) k2 = hasKeyF fs k2 := by
  unfold hasKeyF
  rw [lookupF_insertF_ne fs k k2 v h]

/- ------------------------------------------------------------------ -/
/- Unfolding lemmas for the transport.                                -/
/- ------------------------------------------------------------------ -/

theorem sendReq_eq (env : TEnv) (method endpoint : String) (data : Option JVal) :
    sendReq env method endpoint data =
      (env.httpTrace env.httpIdx, advance1 env method endpoint data) := rfl

theorem make_request_step_resp (method endpoint : String) (data : Option JVal)
    (timeout : Nat) (env : TEnv) (r : HttpResponse)
    (hev : env.httpTrace env.httpIdx = .resp r) (h401 : (r.status == 401) = false) :
    make_request_step method endpoint data timeout env =
      (match classify_response endpoint r with
       | .done j => .inl (j, advance1 env method endpoint data)
       | .retryTransient fallback => .inr (fallback, advance1 env method endpoint data)) := by
  unfold make_request_step
  rw [sendReq_eq, hev]
  simp only [h401, Bool.false_eq_true, if_false]

theorem make_request_step_401 (method endpoint : String) (data : Option JVal)
    (timeout : Nat) (env : TEnv) (r : HttpResponse)
    (hev : env.httpTrace env.httpIdx = .resp r) (h401 : (r.status == 401) = true) :
    make_request_step method endpoint data timeout env =
      (match refresh_access_token (advance1 env method endpoint data) with
       | (true, env2) =>
         (match sendReq env2 method endpoint data with
          | (.timeoutEv msg, env3) => .inl (timeout_error_obj timeout msg, env3)
          | (.connErrorEv msg, env3) => .inl (connection_error_obj msg, env3)
          | (.reqExcEv msg, env3) => .inl (request_failed_obj msg, env3)
          | (.otherExcEv msg, env3) => .inl (unexpected_error_obj msg, env3)
          | (.resp r2, env3) =>
            match classify_response endpoint r2 with
            | .done j => .inl (j, env3)
            | .retryTransient fallback => .inr (fallback, env3))
       | (false, env2) => .inl (auth_failed_obj, env2)) := by
  unfold make_request_step
  rw [sendReq_eq, hev]
  simp only [h401, if_true]

theorem classify_retry_transient (endpoint : String) (r : HttpResponse) (f : JVal)
    (h : classify_response endpoint r = .retryTransient f) :
    transientStatus r.status = true ∧ 500 ≤ r.status ∧ f = server_error_obj r := by
  unfold classify_response at h
  split at h
  · simp at h
  · split at h
    · simp at h
    · split at h
      · split at h
        · simp at h
          exact ⟨by assumption, by assumption, h.symm⟩
        · simp at h
      · split at h
        · simp at h
        · split at h
          · simp at h
          · split at h
            · simp at h
            · split at h
              · simp at h
              · simp at h

theorem make_requestGo_succ (method endpoint : String) (data : Option JVal)
    (timeout m : Nat) (env : TEnv) :
    make_requestGo method endpoint data timeout (Nat.succ m) env =
      (match make_request_step method endpoint data timeout env with
       | .inl res => res
       | .inr (_, env1) => make_requestGo method endpoint data timeout m env1) := by
  rw [make_requestGo]

theorem make_requestGo_zero (method endpoint : String) (data : Option JVal)
    (timeout : Nat) (env : TEnv) :
    make_requestGo method endpoint data timeout 0 env =
      (match make_request_step method endpoint data timeout env with
       | .inl res => res
       | .inr res => res) := by
  rw [make_requestGo]

theorem classify_200_obj (endpoint : String) (r : HttpResponse) (fs : List (String × JVal))
    (h200 : r.status = 200) (hb : r.jsonBody = some (.obj fs)) :
    classify_response endpoint r =
      .done (if hasKeyF fs "status" then JVal.obj fs
             else .obj (insertF fs "status" (.str "success"))) := by
  unfold classify_response
  rw [hb, h200]
  norm_num

theorem make_request_step_oneShot (method endpoint : String) (data : Option JVal)
    (timeout : Nat) (env : TEnv) (h : oneShotE (env.httpTrace env.httpIdx)) :
    ∃ j, make_request_step method endpoint data timeout env =
      .inl (j, advance1 env method endpoint data) := by
  cases hev : env.httpTrace env.httpIdx with
  | resp r =>
    rw [hev] at h
    obtain ⟨h401, htr⟩ := h
    have h401b : (r.status == 401) = false := by simpa using h401
    rw [make_request_step_resp method endpoint data timeout env r hev h401b]
    cases hcl : classify_response endpoint r with
    | done j => exact ⟨j, rfl⟩
    | retryTransient f =>
      have hc := (classify_retry_transient endpoint r f hcl).1
      rw [hc] at htr
      cases htr
  | timeoutEv msg =>
    refine ⟨timeout_error_obj timeout msg, ?_⟩
    unfold make_request_step
    rw [sendReq_eq, hev]
  | connErrorEv msg =>
    refine ⟨connection_error_obj msg, ?_⟩
    unfold make_request_step
    rw [sendReq_eq, hev]
  | reqExcEv msg =>
    refine ⟨request_failed_obj msg, ?_⟩
    unfold make_request_step
    rw [sendReq_eq, hev]
  | otherExcEv msg =>
    refine ⟨unexpected_error_obj msg, ?_⟩
    unfold make_request_step
    rw [sendReq_eq, hev]

theorem make_requestGo_oneShot (method endpoint : String) (data : Option JVal)
    (timeout : Nat) (fuel : Nat) (env : TEnv) (h : oneShotE (env.httpTrace env.httpIdx)) :
    ∃ j, make_requestGo method endpoint data timeout fuel env =
      (j, advance1 env method endpoint data) := by
  obtain ⟨j, hj⟩ := make_request_step_oneShot method endpoint data timeout env h
  cases fuel with
  | zero => rw [make_requestGo_zero, hj]; exact ⟨j, rfl⟩
  | succ m => rw [make_requestGo_succ, hj]; exact ⟨j, rfl⟩

theorem make_requestGo_plainOk (method endpoint : String) (data : Option JVal)
    (timeout : Nat) (fuel : Nat) (env : TEnv) (r : HttpResponse) (fs : List (String × JVal))
    (hev : env.httpTrace env.httpIdx = .resp r) (h200 : r.status = 200)
    (hb : r.jsonBody = some (.obj fs)) :
    make_requestGo method endpoint data timeout fuel env =
      ((if hasKeyF fs "status" then JVal.obj fs
        else .obj (insertF fs "status" (.str "success"))),
       advance1 env method endpoint data) := by
  have h401 : (r.status == 401) = false := by simp [h200]
  have hstep := make_request_step_resp method endpoint data timeout env r hev h401
  rw [classify_200_obj endpoint r fs h200 hb] at hstep
  cases fuel with
  | zero => rw [make_requestGo_zero, hstep]
  | succ m => rw [make_requestGo_succ, hstep]

theorem refresh_noCreds_eq (env : TEnv)
    (h : truthyS env.creds.refresh_token = false ∨ truthyS env.creds.client_id = false ∨
         truthyS env.creds.client_secret = false) :
    refresh_access_token env = (false, env) := by
  unfold refresh_access_token
  rcases h with h | h | h
  · simp [h]
  · cases htr : truthyS env.creds.refresh_token <;> simp [h, htr]
  · cases htr : truthyS env.creds.refresh_token <;> simp [h, htr]

theorem refresh_success_eq (env : TEnv) (tokens : TokenResp)
    (h1 : truthyS env.creds.refresh_token = true)
    (h2 : truthyS env.creds.client_id = true)
    (h3 : truthyS env.creds.client_secret = true)
    (htok : env.tokenTrace env.tokenIdx = some tokens) :
    refresh_access_token env =
      (true,
       { env with
         tokenIdx := env.tokenIdx + 1,
         creds := { env.creds with
                    access_token := tokens.access_token,
                    refresh_token := match tokens.refresh_token with
                      | some r => some r
                      | none => env.creds.refresh_token },
         saved := env.saved ++ [tokens] }) := by
  unfold refresh_access_token
  simp only [h1, h2, h3, Bool.not_true, Bool.false_or, Bool.or_self, Bool.false_eq_true,
    if_false, htok]

theorem refresh_netFail_eq (env : TEnv)
    (h1 : truthyS env.creds.refresh_token = true)
    (h2 : truthyS env.creds.client_id = true)
    (h3 : truthyS env.creds.client_secret = true)
    (htok : env.tokenTrace env.tokenIdx = none) :
    refresh_access_token env = (false, { env with tokenIdx := env.tokenIdx + 1 }) := by
  unfold refresh_access_token
  simp only [h1, h2, h3, Bool.not_true, Bool.false_or, Bool.or_self, Bool.false_eq_true,
    if_false, htok]

theorem refresh_preserves (env : TEnv) :
    (refresh_access_token env).2.sent = env.sent
  ∧ (refresh_access_token env).2.httpTrace = env.httpTrace
  ∧ (refresh_access_token env).2.httpIdx = env.httpIdx := by
  unfold refresh_access_token
  split
  · exact ⟨rfl, rfl, rfl⟩
  · split
    · exact ⟨rfl, rfl, rfl⟩
    · split <;> exact ⟨rfl, rfl, rfl⟩

theorem make_request_of_step_inl (method endpoint : String) (data : Option JVal)
    (timeout : Nat) (b : Bool) (env : TEnv) (j : JVal) (env2 : TEnv)
    (h : make_request_step method endpoint data timeout env = .inl (j, env2)) :
    make_request method endpoint data timeout b env = (j, env2) := by
  cases b
  · unfold make_request
    simp only [cond]
    rw [make_requestGo_zero, h]
  · unfold make_request
    simp only [cond]
    rw [make_requestGo_succ, h]

theorem make_request_step_sent_mono (method endpoint : String) (data : Option JVal)
    (timeout : Nat) (env : TEnv) :
    ∃ l, (stepEnvOf (make_request_step method endpoint data timeout env)).sent
      = env.sent ++ l := by
  cases hev : env.httpTrace env.httpIdx with
  | resp r =>
    by_cases h401 : (r.status == 401) = true
    · rw [make_request_step_401 method endpoint data timeout env r hev h401]
      rcases hrx : refresh_access_token (advance1 env method endpoint data) with ⟨ok, env2⟩
      have hpres := (refresh_preserves (advance1 env method endpoint data)).1
      rw [hrx] at hpres
      simp only at hpres
      cases ok with
      | false =>
        refine ⟨[mkReq method endpoint env.creds.access_token data], ?_⟩
        simp only [stepEnvOf]
        rw [hpres]
        simp [advance1, mkReq]
      | true =>
        simp only [sendReq_eq]
        have hsuf : env2.sent ++ [mkReq method endpoint env2.creds.access_token data] =
            env.sent ++ [mkReq method endpoint env.creds.access_token data,
                         mkReq method endpoint env2.creds.access_token data] := by
          rw [hpres]
          simp [advance1, mkReq]
        cases hev2 : env2.httpTrace env2.httpIdx with
        | resp r2 =>
          cases hcl : classify_response endpoint r2 with
          | done j =>
            refine ⟨[mkReq method endpoint env.creds.access_token data,
                     mkReq method endpoint env2.creds.access_token data], ?_⟩
            simp only []
            rw [hcl]
            simpa [stepEnvOf, advance1, mkReq] using hsuf
          | retryTransient f =>
            refine ⟨[mkReq method endpoint env.creds.access_token data,
                     mkReq method endpoint env2.creds.access_token data], ?_⟩
            simp only []
            rw [hcl]
            simpa [stepEnvOf, advance1, mkReq] using hsuf
        | timeoutEv msg =>
          refine ⟨[mkReq method endpoint env.creds.access_token data,
                   mkReq method endpoint env2.creds.access_token data], ?_⟩
          simpa [stepEnvOf, advance1, mkReq] using hsuf
        | connErrorEv msg =>
          refine ⟨[mkReq method endpoint env.creds.access_token data,
                   mkReq method endpoint env2.creds.access_token data], ?_⟩
          simpa [stepEnvOf, advance1, mkReq] using hsuf
        | reqExcEv msg =>
          refine ⟨[mkReq method endpoint env.creds.access_token data,
                   mkReq method endpoint env2.creds.access_token data], ?_⟩
          simpa [stepEnvOf, advance1, mkReq] using hsuf
        | otherExcEv msg =>
          refine ⟨[mkReq method endpoint env.creds.access_token data,
                   mkReq method endpoint env2.creds.access_token data], ?_⟩
          simpa [stepEnvOf, advance1, mkReq] using hsuf
    · have h401b : (r.status == 401) = false := by simpa using h401
      rw [make_request_step_resp method endpoint data timeout env r hev h401b]
      cases hcl : classify_response endpoint r with
      | done j =>
        refine ⟨[mkReq method endpoint env.creds.access_token data], ?_⟩
        try rw [hcl]
        simp [stepEnvOf, advance1, mkReq]
      | retryTransient f =>
        refine ⟨[mkReq method endpoint env.creds.access_token data], ?_⟩
        try rw [hcl]
        simp [stepEnvOf, advance1, mkReq]
  | timeoutEv msg =>
    refine ⟨[mkReq method endpoint env.creds.access_token data], ?_⟩
    unfold make_request_step
    rw [sendReq_eq, hev]
    simp [stepEnvOf, advance1, mkReq]
  | connErrorEv msg =>
    refine ⟨[mkReq method endpoint env.creds.access_token data], ?_⟩
    unfold make_request_step
    rw [sendReq_eq, hev]
    simp [stepEnvOf, advance1, mkReq]
  | reqExcEv msg =>
    refine ⟨[mkReq method endpoint env.creds.access_token data], ?_⟩
    unfold make_request_step
    rw [sendReq_eq, hev]
    simp [stepEnvOf, advance1, mkReq]
  | otherExcEv msg =>
    refine ⟨[mkReq method endpoint env.creds.access_token data], ?_⟩
    unfold make_request_step
    rw [sendReq_eq, hev]
    simp [stepEnvOf, advance1, mkReq]

theorem make_requestGo_sent_mono (method endpoint : String) (data : Option JVal)
    (timeout : Nat) : ∀ (fuel : Nat) (env : TEnv),
    ∃ l, (make_requestGo method endpoint data timeout fuel env).2.sent = env.sent ++ l := by
  intro fuel
  induction fuel with
  | zero =>
    intro env
    obtain ⟨l, hl⟩ := make_request_step_sent_mono method endpoint data timeout env
    rw [make_requestGo_zero]
    cases hs : make_request_step method endpoint data timeout env with
    | inl p =>
      obtain ⟨j, e⟩ := p
      rw [hs] at hl
      exact ⟨l, by simpa [stepEnvOf] using hl⟩
    | inr p =>
      obtain ⟨j, e⟩ := p
      rw [hs] at hl
      exact ⟨l, by simpa [stepEnvOf] using hl⟩
  | succ m ih =>
    intro env
    obtain ⟨l, hl⟩ := make_request_step_sent_mono method endpoint data timeout env
    rw [make_requestGo_succ]
    cases hs : make_request_step method endpoint data timeout env with
    | inl p =>
      obtain ⟨j, e⟩ := p
      rw [hs] at hl
      exact ⟨l, by simpa [stepEnvOf] using hl⟩
    | inr p =>
      obtain ⟨j, e⟩ := p
      rw [hs] at hl
      simp only [stepEnvOf] at hl
      obtain ⟨l2, hl2⟩ := ih e
      exact ⟨l ++ l2, by rw [hl2, hl, List.append_assoc]⟩


theorem make_request_step_done (method endpoint : String) (data : Option JVal)
    (timeout : Nat) (env : TEnv) (r : HttpResponse) (j : JVal)
    (hev : env.httpTrace env.httpIdx = .resp r) (h401 : (r.status == 401) = false)
    (hcl : classify_response endpoint r = .done j) :
    make_request_step method endpoint data timeout env =
      .inl (j, advance1 env method endpoint data) := by
  rw [make_request_step_resp method endpoint data timeout env r hev h401, hcl]

theorem make_request_step_retry (method endpoint : String) (data : Option JVal)
    (timeout : Nat) (env : TEnv) (r : HttpResponse) (f : JVal)
    (hev : env.httpTrace env.httpIdx = .resp r) (h401 : (r.status == 401) = false)
    (hcl : classify_response endpoint r = .retryTransient f) :
    make_request_step method endpoint data timeout env =
      .inr (f, advance1 env method endpoint data) := by
  rw [make_request_step_resp method endpoint data timeout env r hev h401, hcl]

theorem make_request_false_of_step_inr (method endpoint : String) (data : Option JVal)
    (timeout : Nat) (env : TEnv) (j : JVal) (env2 : TEnv)
    (h : make_request_step method endpoint data timeout env = .inr (j, env2)) :
    make_request method endpoint data timeout false env = (j, env2) := by
  unfold make_request
  simp only [cond]
  rw [make_requestGo_zero, h]

theorem make_request_true_of_step_inr (method endpoint : String) (data : Option JVal)
    (timeout : Nat) (env : TEnv) (j : JVal) (env2 : TEnv)
    (h : make_request_step method endpoint data timeout env = .inr (j, env2)) :
    make_request method endpoint data timeout true env =
      make_requestGo method endpoint data timeout 0 env2 := by
  unfold make_request
  simp only [cond]
  rw [make_requestGo_succ, h]

theorem classify_5xx (endpoint : String) (r : HttpResponse) (h5 : 500 ≤ r.status) :
    classify_response endpoint r =
      (if transientStatus r.status then .retryTransient (server_error_obj r)
       else .done (server_error_obj r)) := by
  unfold classify_response
  have h404 : (r.status == 404) = false := by simp; omega
  have h429 : (r.status == 429) = false := by simp; omega
  rw [h404, h429]
  simp only [Bool.false_eq_true, if_false, h5, if_true]

theorem make_requestGo_zero_env_non401 (method endpoint : String) (data : Option JVal)
    (timeout : Nat) (env : TEnv)
    (h : ∀ r2, env.httpTrace env.httpIdx = .resp r2 → (r2.status == 401) = false) :
    (make_requestGo method endpoint data timeout 0 env).2 =
      advance1 env method endpoint data := by
  rw [make_requestGo_zero]
  cases hev : env.httpTrace env.httpIdx with
  | resp r2 =>
    rw [make_request_step_resp method endpoint data timeout env r2 hev (h r2 hev)]
    cases hcl : classify_response endpoint r2 with
    | done j => rfl
    | retryTransient f => rfl
  | timeoutEv msg =>
    unfold make_request_step
    rw [sendReq_eq, hev]
  | connErrorEv msg =>
    unfold make_request_step
    rw [sendReq_eq, hev]
  | reqExcEv msg =>
    unfold make_request_step
    rw [sendReq_eq, hev]
  | otherExcEv msg =>
    unfold make_request_step
    rw [sendReq_eq, hev]

theorem refresh_fail_eq (env : TEnv)
    (h : truthyS env.creds.refresh_token = false ∨ truthyS env.creds.client_id = false ∨
         truthyS env.creds.client_secret = false ∨ env.tokenTrace env.tokenIdx = none) :
    ∃ k, refresh_access_token env = (false, { env with tokenIdx := k }) := by
  by_cases h1 : truthyS env.creds.refresh_token = true
  · by_cases h2 : truthyS env.creds.client_id = true
    · by_cases h3 : truthyS env.creds.client_secret = true
      · have htok : env.tokenTrace env.tokenIdx = none := by
          rcases h with h | h | h | h
          · rw [h1] at h; cases h
          · rw [h2] at h; cases h
          · rw [h3] at h; cases h
          · exact h
        exact ⟨env.tokenIdx + 1, refresh_netFail_eq env h1 h2 h3 htok⟩
      · refine ⟨env.tokenIdx, ?_⟩
        rw [refresh_noCreds_eq env (Or.inr (Or.inr (by simpa using h3)))]
    · refine ⟨env.tokenIdx, ?_⟩
      rw [refresh_noCreds_eq env (Or.inr (Or.inl (by simpa using h2)))]
  · refine ⟨env.tokenIdx, ?_⟩
    rw [refresh_noCreds_eq env (Or.inl (by simpa using h1))]


/-- C1 (amended): for a first response with a 5xx status, a transient
status (502, 503, 504) with allowRetry re-issues the request exactly once
with allowRetry disabled, giving exactly 2 attempts whenever the retried
attempt is not answered by a 401; a non-transient 5xx or an exhausted
retry yields the SERVER_ERROR failure carrying the is_transient flag. -/
theorem C1_transient_5xx (method endpoint : String) (data : Option JVal)
    (timeout : Nat) (env : TEnv) (r : HttpResponse)
    (hev : env.httpTrace env.httpIdx = .resp r) (h5 : 500 ≤ r.status) :
    (transientStatus r.status = true →
       make_request method endpoint data timeout true env =
         make_request method endpoint data timeout false
           (advance1 env method endpoint data))
  ∧ (transientStatus r.status = true →
       (∀ r2, env.httpTrace (env.httpIdx + 1) = .resp r2 → r2.status ≠ 401) →
       (make_request method endpoint data timeout true env).2.sent.length
         = env.sent.length + 2)
  ∧ (∀ b : Bool, transientStatus r.status = false ∨ b = false →
       (make_request method endpoint data timeout b env).1 = server_error_obj r
     ∧ pyGet (make_request method endpoint data timeout b env).1 "error_code" .null
         = .str "SERVER_ERROR"
     ∧ is_transient_of (make_request method endpoint data timeout b env).1
         = transientStatus r.status) := by
  have h401 : (r.status == 401) = false := by simp; omega
  have hcl := classify_5xx endpoint r h5
  have hstep1 : transientStatus r.status = true →
      make_request_step method endpoint data timeout env =
        .inr (server_error_obj r, advance1 env method endpoint data) := by
    intro ht
    refine make_request_step_retry method endpoint data timeout env r _ hev h401 ?_
    rw [hcl, ht]
    simp
  have heq1 : transientStatus r.status = true →
      make_request method endpoint data timeout true env =
        make_request method endpoint data timeout false
          (advance1 env method endpoint data) := by
    intro ht
    rw [make_request_true_of_step_inr method endpoint data timeout env _ _ (hstep1 ht)]
    rfl
  refine ⟨heq1, ?_, ?_⟩
  · intro ht hno401
    rw [heq1 ht]
    have henv : (make_request method endpoint data timeout false
        (advance1 env method endpoint data)).2 =
        advance1 (advance1 env method endpoint data) method endpoint data := by
      unfold make_request
      simp only [cond]
      refine make_requestGo_zero_env_non401 method endpoint data timeout _ ?_
      intro r2 hr2
      simpa using hno401 r2 hr2
    rw [henv]
    simp [advance1]
  · intro b hdisj
    rcases Bool.eq_false_or_eq_true (transientStatus r.status) with ht | ht
    · have hb : b = false := by
        rcases hdisj with h | h
        · rw [ht] at h
          exact absurd h (by decide)
        · exact h
      subst hb
      have hmr := make_request_false_of_step_inr method endpoint data timeout env _ _
        (hstep1 ht)
      rw [hmr]
      exact ⟨rfl, rfl, rfl⟩
    · have hdone : classify_response endpoint r = .done (server_error_obj r) := by
        rw [hcl, ht]
        simp
      have hmr := make_request_of_step_inl method endpoint data timeout b env _ _
        (make_request_step_done method endpoint data timeout env r _ hev h401 hdone)
      rw [hmr]
      exact ⟨rfl, rfl, rfl⟩

/-- Witness for C1 at a concrete 503-then-404 trace: the request is
re-issued once and exactly two requests are sent. -/
theorem C1_transient_5xx_witness :
    make_request "GET" "/p" none 30 true (mkEnv trC1w) =
      make_request "GET" "/p" none 30 false (advance1 (mkEnv trC1w) "GET" "/p" none)
  ∧ (make_request "GET" "/p" none 30 true (mkEnv trC1w)).2.sent.length = 0 + 2 := by
  have h := C1_transient_5xx "GET" "/p" none 30 (mkEnv trC1w)
      (respN 503 (some (.obj [("error", .str "bad gateway")])) "x") rfl (by decide)
  refine ⟨h.1 rfl, h.2.1 rfl ?_⟩
  intro r2 hr2
  injection hr2 with hh
  rw [← hh]
  decide

/-- Counterexample to C1 as stated: a transient 503 first response with
allowRetry true can lead to 3 total HTTP attempts when the retried
attempt is answered by a 401 whose token refresh succeeds. -/
theorem C1_counterexample :
    trC1 0 = .resp (respN 503 (some (.obj [("error", .str "bad gateway")])) "x")
  ∧ transientStatus 503 = true
  ∧ (make_request "GET" "/p" none 30 true (mkEnv trC1)).2.sent.length = 3 :=
  ⟨rfl, rfl, rfl⟩


theorem make_request_step_401_success (method endpoint : String) (data : Option JVal)
    (timeout : Nat) (env : TEnv) (r : HttpResponse) (tokens : TokenResp)
    (hev : env.httpTrace env.httpIdx = .resp r) (h401 : (r.status == 401) = true)
    (h1 : truthyS env.creds.refresh_token = true)
    (h2 : truthyS env.creds.client_id = true)
    (h3 : truthyS env.creds.client_secret = true)
    (htok : env.tokenTrace env.tokenIdx = some tokens) :
    make_request_step method endpoint data timeout env =
      (match env.httpTrace (env.httpIdx + 1) with
       | .resp r2 =>
         (match classify_response endpoint r2 with
          | .done j => .inl (j, env_after_auth_retry env tokens method endpoint data)
          | .retryTransient f =>
            .inr (f, env_after_auth_retry env tokens method endpoint data))
       | .timeoutEv msg =>
         .inl (timeout_error_obj timeout msg,
               env_after_auth_retry env tokens method endpoint data)
       | .connErrorEv msg =>
         .inl (connection_error_obj msg,
               env_after_auth_retry env tokens method endpoint data)
       | .reqExcEv msg =>
         .inl (request_failed_obj msg,
               env_after_auth_retry env tokens method endpoint data)
       | .otherExcEv msg =>
         .inl (unexpected_error_obj msg,
               env_after_auth_retry env tokens method endpoint data)) := by
  rw [make_request_step_401 method endpoint data timeout env r hev h401,
      refresh_success_eq (advance1 env method endpoint data) tokens h1 h2 h3 htok]
  simp only [sendReq_eq, advance1, env_after_auth_retry]
  cases env.httpTrace (env.httpIdx + 1) with
  | resp r2 => cases classify_response endpoint r2 <;> rfl
  | timeoutEv msg => rfl
  | connErrorEv msg => rfl
  | reqExcEv msg => rfl
  | otherExcEv msg => rfl


theorem env_after_auth_retry_facts (env : TEnv) (tokens : TokenResp)
    (method endpoint : String) (data : Option JVal) :
    (env_after_auth_retry env tokens method endpoint data).sent
      = env.sent ++ [mkReq method endpoint env.creds.access_token data,
                     mkReq method endpoint tokens.access_token data]
  ∧ (env_after_auth_retry env tokens method endpoint data).tokenIdx = env.tokenIdx + 1
  ∧ (env_after_auth_retry env tokens method endpoint data).saved = env.saved ++ [tokens] := by
  refine ⟨?_, rfl, rfl⟩
  simp [env_after_auth_retry, advance1, mkReq]

/-- C2 (amended): a first 401 response triggers the refresher; on refresh
success the request is re-issued exactly once with the refreshed bearer
token, and exactly 2 attempts occur whenever the re-issued response is
not a transient 5xx (a transient 5xx there engages the separate transient
retry and can add attempts); on refresh failure exactly 1 attempt is made
and the AUTH_FAILED failure (not transient) is returned. -/
theorem C2_auth_refresh (method endpoint : String) (data : Option JVal)
    (timeout : Nat) (env : TEnv) (r : HttpResponse)
    (hev : env.httpTrace env.httpIdx = .resp r) (h401 : r.status = 401) :
    (∀ tokens : TokenResp, truthyS env.creds.refresh_token = true →
       truthyS env.creds.client_id = true → truthyS env.creds.client_secret = true →
       env.tokenTrace env.tokenIdx = some tokens →
       (∃ rest, (make_request method endpoint data timeout true env).2.sent
          = env.sent ++ [mkReq method endpoint env.creds.access_token data,
                         mkReq method endpoint tokens.access_token data] ++ rest)
     ∧ ((∀ r2, env.httpTrace (env.httpIdx + 1) = .resp r2 →
            transientStatus r2.status = false) →
           (make_request method endpoint data timeout true env).2.sent
             = env.sent ++ [mkReq method endpoint env.creds.access_token data,
                            mkReq method endpoint tokens.access_token data]
         ∧ (make_request method endpoint data timeout true env).2.tokenIdx
             = env.tokenIdx + 1
         ∧ (make_request method endpoint data timeout true env).2.saved
             = env.saved ++ [tokens]))
  ∧ ((truthyS env.creds.refresh_token = false ∨ truthyS env.creds.client_id = false ∨
       truthyS env.creds.client_secret = false ∨ env.tokenTrace env.tokenIdx = none) →
       (make_request method endpoint data timeout true env).1 = auth_failed_obj
     ∧ pyGet (make_request method endpoint data timeout true env).1 "error_code" .null
         = .str "AUTH_FAILED"
     ∧ is_transient_of (make_request method endpoint data timeout true env).1 = false
     ∧ (make_request method endpoint data timeout true env).2.sent
         = env.sent ++ [mkReq method endpoint env.creds.access_token data]) := by
  have h401b : (r.status == 401) = true := by simp [h401]
  constructor
  · intro tokens h1 h2 h3 htok
    have hstep := make_request_step_401_success method endpoint data timeout env r tokens
      hev h401b h1 h2 h3 htok
    have hfacts := env_after_auth_retry_facts env tokens method endpoint data
    cases hev2 : env.httpTrace (env.httpIdx + 1) with
    | resp r2 =>
      rw [hev2] at hstep
      simp only [] at hstep
      cases hcl : classify_response endpoint r2 with
      | done j =>
        rw [hcl] at hstep
        simp only [] at hstep
        have hmr := make_request_of_step_inl method endpoint data timeout true env _ _ hstep
        rw [hmr]
        refine ⟨⟨[], by simpa using hfacts.1⟩, ?_⟩
        intro _
        exact ⟨hfacts.1, hfacts.2.1, hfacts.2.2⟩
      | retryTransient f =>
        rw [hcl] at hstep
        simp only [] at hstep
        have hgo := make_request_true_of_step_inr method endpoint data timeout env _ _ hstep
        rw [hgo]
        obtain ⟨l, hl⟩ := make_requestGo_sent_mono method endpoint data timeout 0
          (env_after_auth_retry env tokens method endpoint data)
        constructor
        · exact ⟨l, by rw [hl, hfacts.1]⟩
        · intro hnt
          have hc := (classify_retry_transient endpoint r2 f hcl).1
          rw [hnt r2 rfl] at hc
          exact absurd hc (by decide)
    | timeoutEv msg =>
      rw [hev2] at hstep
      simp only [] at hstep
      have hmr := make_request_of_step_inl method endpoint data timeout true env _ _ hstep
      rw [hmr]
      exact ⟨⟨[], by simpa using hfacts.1⟩,
             fun _ => ⟨hfacts.1, hfacts.2.1, hfacts.2.2⟩⟩
    | connErrorEv msg =>
      rw [hev2] at hstep
      simp only [] at hstep
      have hmr := make_request_of_step_inl method endpoint data timeout true env _ _ hstep
      rw [hmr]
      exact ⟨⟨[], by simpa using hfacts.1⟩,
             fun _ => ⟨hfacts.1, hfacts.2.1, hfacts.2.2⟩⟩
    | reqExcEv msg =>
      rw [hev2] at hstep
      simp only [] at hstep
      have hmr := make_request_of_step_inl method endpoint data timeout true env _ _ hstep
      rw [hmr]
      exact ⟨⟨[], by simpa using hfacts.1⟩,
             fun _ => ⟨hfacts.1, hfacts.2.1, hfacts.2.2⟩⟩
    | otherExcEv msg =>
      rw [hev2] at hstep
      simp only [] at hstep
      have hmr := make_request_of_step_inl method endpoint data timeout true env _ _ hstep
      rw [hmr]
      exact ⟨⟨[], by simpa using hfacts.1⟩,
             fun _ => ⟨hfacts.1, hfacts.2.1, hfacts.2.2⟩⟩
  · intro hfail
    have hstep := make_request_step_401 method endpoint data timeout env r hev h401b
    obtain ⟨k, hr⟩ := refresh_fail_eq (advance1 env method endpoint data) (by
      rcases hfail with h | h | h | h
      · exact Or.inl h
      · exact Or.inr (Or.inl h)
      · exact Or.inr (Or.inr (Or.inl h))
      · exact Or.inr (Or.inr (Or.inr h)))
    rw [hr] at hstep
    simp only [] at hstep
    have hmr := make_request_of_step_inl method endpoint data timeout true env _ _ hstep
    rw [hmr]
    exact ⟨rfl, rfl, rfl, rfl⟩


/-- Witness for C2 at a concrete 401-then-404 trace: exactly two requests
are sent, the second carrying the refreshed bearer token, and the
refreshed tokens are saved. -/
theorem C2_auth_refresh_witness :
    (make_request "GET" "/p" none 30 true (mkEnv trC2w)).2.sent
      = [mkReq "GET" "/p" (some "tok0") none, mkReq "GET" "/p" (some "tok1") none]
  ∧ (make_request "GET" "/p" none 30 true (mkEnv trC2w)).2.saved
      = [{ access_token := some "tok1", refresh_token := none }] := by
  have h := ((C2_auth_refresh "GET" "/p" none 30 (mkEnv trC2w)
      (respN 401 (some (.obj [("error", .str "expired")])) "x") rfl rfl).1
      { access_token := some "tok1", refresh_token := none } rfl rfl rfl rfl).2
      (fun r2 hr2 => by
        injection hr2 with hh
        rw [← hh]
        decide)
  exact ⟨by simpa using h.1, by simpa using h.2.2⟩


/-- Counterexample to C2 as stated: a first 401 with successful refresh
can lead to 3 total HTTP attempts when the re-issued request is answered
by a transient 503, which engages the transient-retry mechanism. -/
theorem C2_counterexample :
    trC2 0 = .resp (respN 401 (some (.obj [("error", .str "expired")])) "x")
  ∧ (make_request "GET" "/p" none 30 true (mkEnv trC2)).2.saved.length = 1
  ∧ (make_request "GET" "/p" none 30 true (mkEnv trC2)).2.sent.length = 3 :=
  ⟨rfl, rfl, rfl⟩

/-- C4 (code bug): after a non-error delete whose verification fetch is
answered by HTTP 404, delete_task lands in the warning-unverified branch
instead of the confirmed-success one, because the transport 404 message
does not contain the substring 404 the check looks for; the outcome is
still not a hard failure. -/
theorem C4_delete_verification_bug :
    (mkEnv trC4).httpTrace 3 = .resp (respN 404 (some (.obj [("error", .str "nf")])) "x")
  ∧ ((delete_task "p" "t" 1 (mkEnv trC4)).2.sent.map (fun s => (s.method, s.endpoint)))
      = [("GET", "/project/p"), ("GET", "/project/p/task/t"),
         ("DELETE", "/project/p/task/t"), ("GET", "/project/p/task/t")]
  ∧ pyGet (delete_task "p" "t" 1 (mkEnv trC4)).1 "status" .null = .str "warning"
  ∧ pyGet (delete_task "p" "t" 1 (mkEnv trC4)).1 "requires_verification" .null = .bool true
  ∧ pyIn "error" (delete_task "p" "t" 1 (mkEnv trC4)).1 = false
  ∧ strContains "Task not found. It may have been deleted or never existed." "404" = false :=
  ⟨rfl, rfl, rfl, rfl, rfl, rfl⟩

/-- C5 (code bug): deleting a task whose existence pre-check is answered
by HTTP 404 short-circuits with zero DELETE calls, but returns error code
TASK_FETCH_ERROR with http_status 400 instead of a not-found failure,
because the transport 404 message does not contain the substring 404. -/
theorem C5_delete_precheck_bug :
    (mkEnv trC5).httpTrace 1 = .resp (respN 404 (some (.obj [("error", .str "nf")])) "x")
  ∧ (delete_task "p" "t" 1 (mkEnv trC5)).1 =
      .obj [("error", .str "Cannot delete task: Task not found. It may have been deleted or never existed."),
            ("error_code", .str "TASK_FETCH_ERROR"),
            ("status", .str "failed"),
            ("http_status", .num 400)]
  ∧ countDel ((delete_task "p" "t" 1 (mkEnv trC5)).2.sent) = 0
  ∧ ((delete_task "p" "t" 1 (mkEnv trC5)).2.sent.map (fun s => s.method)) = ["GET", "GET"] :=
  ⟨rfl, rfl, rfl, rfl⟩

/-- C8: a 200 response whose body fails to parse yields the
INVALID_RESPONSE_FORMAT failure (not transient) when the body text is
non-empty, and a success result with an empty body otherwise. -/
theorem C8_parse_failure (method endpoint : String) (data : Option JVal)
    (timeout : Nat) (b : Bool) (env : TEnv) (r : HttpResponse)
    (hev : env.httpTrace env.httpIdx = .resp r) (h200 : r.status = 200)
    (hb : r.jsonBody = none) :
    (r.text ≠ "" →
       (make_request method endpoint data timeout b env).1 = invalid_format_obj r
     ∧ pyGet (make_request method endpoint data timeout b env).1 "error_code" .null
         = .str "INVALID_RESPONSE_FORMAT"
     ∧ is_transient_of (make_request method endpoint data timeout b env).1 = false)
  ∧ (r.text = "" →
       (make_request method endpoint data timeout b env).1 = empty_success_obj r
     ∧ pyGet (make_request method endpoint data timeout b env).1 "status" .null = .str "success"
     ∧ pyGet (make_request method endpoint data timeout b env).1 "success" .null = .bool true
     ∧ pyIn "error" (make_request method endpoint data timeout b env).1 = false) := by
  have h401 : (r.status == 401) = false := by simp [h200]
  constructor
  · intro ht
    have htb : (r.text == "") = false := by simpa using ht
    have hcl : classify_response endpoint r = .done (invalid_format_obj r) := by
      unfold classify_response
      rw [hb, h200, htb]
      norm_num
    have hmr := make_request_of_step_inl method endpoint data timeout b env _ _
      (make_request_step_done method endpoint data timeout env r _ hev h401 hcl)
    rw [hmr]
    exact ⟨rfl, rfl, rfl⟩
  · intro ht
    have htb : (r.text == "") = true := by simpa using ht
    have hcl : classify_response endpoint r = .done (empty_success_obj r) := by
      unfold classify_response
      rw [hb, h200, htb]
      norm_num
    have hmr := make_request_of_step_inl method endpoint data timeout b env _ _
      (make_request_step_done method endpoint data timeout env r _ hev h401 hcl)
    rw [hmr]
    exact ⟨rfl, rfl, rfl, rfl⟩


/-- Witness for C8 at a concrete 200 response with an unparseable
non-empty body. -/
theorem C8_parse_failure_witness :
    (make_request "GET" "/p" none 30 true (mkEnv trC8)).1 =
      invalid_format_obj (respN 200 none "garbage")
  ∧ pyGet (make_request "GET" "/p" none 30 true (mkEnv trC8)).1 "error_code" .null
      = .str "INVALID_RESPONSE_FORMAT" := by
  have h := (C8_parse_failure "GET" "/p" none 30 true (mkEnv trC8)
      (respN 200 none "garbage") rfl rfl rfl).1 (by decide)
  exact ⟨h.1, h.2.1⟩

/-- C9: the Token Refresher returns False with no network call and no
state change when any of refresh_token, client id, client secret is
missing; on a successful token-endpoint exchange it returns True,
updates the in-memory access_token (and refresh_token when a new one is
issued) and appends the tokens to the credential-store save log; on a
network or HTTP failure of the exchange it returns False. -/
theorem C9_token_refresh (env : TEnv) :
    ((truthyS env.creds.refresh_token = false ∨ truthyS env.creds.client_id = false ∨
        truthyS env.creds.client_secret = false) →
      refresh_access_token env = (false, env))
  ∧ (∀ tokens : TokenResp, truthyS env.creds.refresh_token = true →
      truthyS env.creds.client_id = true → truthyS env.creds.client_secret = true →
      env.tokenTrace env.tokenIdx = some tokens →
      refresh_access_token env =
        (true,
         { env with
           tokenIdx := env.tokenIdx + 1,
           creds := { env.creds with
                      access_token := tokens.access_token,
                      refresh_token := match tokens.refresh_token with
                        | some rt => some rt
                        | none => env.creds.refresh_token },
           saved := env.saved ++ [tokens] }))
  ∧ (truthyS env.creds.refresh_token = true →
      truthyS env.creds.client_id = true → truthyS env.creds.client_secret = true →
      env.tokenTrace env.tokenIdx = none →
      refresh_access_token env = (false, { env with tokenIdx := env.tokenIdx + 1 })) :=
  ⟨refresh_noCreds_eq env,
   fun tokens h1 h2 h3 htok => refresh_success_eq env tokens h1 h2 h3 htok,
   fun h1 h2 h3 htok => refresh_netFail_eq env h1 h2 h3 htok⟩

/-- Witness for C9 at a concrete environment whose token exchange
succeeds. -/
theorem C9_token_refresh_witness :
    refresh_access_token (mkEnv trC4) =
      (true, { mkEnv trC4 with
               tokenIdx := 1,
               creds := { credsW with access_token := some "tok1" },
               saved := [{ access_token := some "tok1", refresh_token := none }] }) := by
  have h := (C9_token_refresh (mkEnv trC4)).2.1
    { access_token := some "tok1", refresh_token := none } rfl rfl rfl rfl
  exact h


theorem lookupF_insertF (fs : List (String × JVal)) (k k2 : String) (v : JVal) :
    lookupF (insertF fs k v) k2 = if k2 = k then some v else lookupF fs k2 := by
  by_cases h : k2 = k
  · subst h
    simp [lookupF_insertF_self]
  · simp [h, lookupF_insertF_ne fs k k2 v h]

theorem lookupF_eraseF (fs : List (String × JVal)) (k k2 : String) :
    lookupF (eraseF fs k) k2 = if k2 = k then none else lookupF fs k2 := by
  by_cases h : k2 = k
  · subst h
    simp [lookupF_eraseF_self]
  · simp [h, lookupF_eraseF_ne fs k k2 h]

theorem lookupF_eraseAll (ks : List String) (fs : List (String × JVal)) (k : String) :
    lookupF (ks.foldl eraseF fs) k = if k ∈ ks then none else lookupF fs k := by
  by_cases h : k ∈ ks
  · simp [h, lookupF_eraseAll_mem ks fs k h]
  · simp [h, lookupF_eraseAll_ne ks fs k h]

theorem lookupF_optIns (d : List (String × JVal)) (k k2 : String) (v : Option JVal) :
    lookupF (optIns d k v) k2 =
      if k2 = k then (match v with | some x => some x | none => lookupF d k)
      else lookupF d k2 := by
  cases v with
  | none => by_cases h : k2 = k <;> simp [optIns, h]
  | some x => simp [optIns, lookupF_insertF]

theorem lookupF_optInsTitle (d : List (String × JVal)) (k2 : String) (t : Option String) :
    lookupF (optInsTitle d t) k2 =
      if k2 = "title" then
        (match t with | some v => some (.str (pyStrip v)) | none => lookupF d "title")
      else lookupF d k2 := by
  cases t with
  | none => by_cases h : k2 = "title" <;> simp [optInsTitle, h]
  | some v => simp [optInsTitle, lookupF_insertF]

theorem upd_data_eq (fs : List (String × JVal)) (task_id project_id : String)
    (title content : Option String) (priority : Option Int)
    (start_date due_date repeat_flag : Option String)
    (herr : hasKeyF fs "error" = false) :
    update_task_data (.obj fs) task_id project_id title content priority
        start_date due_date repeat_flag none
      = .inr (fields_to_remove.foldl eraseF
          (optIns (optIns (optIns (optIns (optIns
            (optInsTitle (insertF (insertF fs "id" (.str task_id))
                "projectId" (.str project_id)) title)
            "content" (content.map JVal.str))
            "priority" (priority.map JVal.num))
            "startDate" (start_date.map JVal.str))
            "dueDate" (due_date.map JVal.str))
            "repeatFlag" (repeat_flag.map JVal.str))) := by
  have hpy : pyIn "error" (JVal.obj fs) = false := herr
  rcases title with _ | t <;> rcases content with _ | c <;> rcases priority with _ | pr <;>
    rcases start_date with _ | sdv <;> rcases due_date with _ | ddv <;>
    rcases repeat_flag with _ | rfv <;>
    simp [update_task_data, hpy, optIns, optInsTitle]


/-- C3: Update(Task) fetches the current task first and fails fast on a
fetch error; every explicitly supplied field overwrites the fetched
value, every omitted field is carried over unchanged, the server-managed
fields are stripped from the write body regardless of origin, and an
update with no fields supplied writes a body field-for-field identical to
the fetched resource except for the server-managed fields. -/
theorem C3_update_preservation :
    (∀ env project_id task_id t env1,
       get_task project_id task_id env = (t, env1) → pyIn "error" t = true →
       update_task task_id project_id none none none none none none none env = (t, env1))
  ∧ (∀ fs task_id project_id (title content : Option String) (priority : Option Int)
       (start_date due_date repeat_flag : Option String),
       hasKeyF fs "error" = false →
       (update_task_data (.obj fs) task_id project_id title content priority
           start_date due_date repeat_flag none).isRight = true
     ∧ (∀ f ∈ fields_to_remove,
         lookupF (updBody (update_task_data (.obj fs) task_id project_id title content
           priority start_date due_date repeat_flag none)) f = none)
     ∧ lookupF (updBody (update_task_data (.obj fs) task_id project_id title content
           priority start_date due_date repeat_flag none)) "id" = some (.str task_id)
     ∧ lookupF (updBody (update_task_data (.obj fs) task_id project_id title content
           priority start_date due_date repeat_flag none)) "projectId"
         = some (.str project_id)
     ∧ (∀ v, title = some v →
         lookupF (updBody (update_task_data (.obj fs) task_id project_id title content
           priority start_date due_date repeat_flag none)) "title"
           = some (.str (pyStrip v)))
     ∧ (title = none →
         lookupF (updBody (update_task_data (.obj fs) task_id project_id title content
           priority start_date due_date repeat_flag none)) "title" = lookupF fs "title")
     ∧ (∀ v, content = some v →
         lookupF (updBody (update_task_data (.obj fs) task_id project_id title content
           priority start_date due_date repeat_flag none)) "content" = some (.str v))
     ∧ (content = none →
         lookupF (updBody (update_task_data (.obj fs) task_id project_id title content
           priority start_date due_date repeat_flag none)) "content"
           = lookupF fs "content")
     ∧ (∀ v, priority = some v →
         lookupF (updBody (update_task_data (.obj fs) task_id project_id title content
           priority start_date due_date repeat_flag none)) "priority" = some (.num v))
     ∧ (priority = none →
         lookupF (updBody (update_task_data (.obj fs) task_id project_id title content
           priority start_date due_date repeat_flag none)) "priority"
           = lookupF fs "priority")
     ∧ (∀ v, start_date = some v →
         lookupF (updBody (update_task_data (.obj fs) task_id project_id title content
           priority start_date due_date repeat_flag none)) "startDate" = some (.str v))
     ∧ (start_date = none →
         lookupF (updBody (update_task_data (.obj fs) task_id project_id title content
           priority start_date due_date repeat_flag none)) "startDate"
           = lookupF fs "startDate")
     ∧ (∀ v, due_date = some v →
         lookupF (updBody (update_task_data (.obj fs) task_id project_id title content
           priority start_date due_date repeat_flag none)) "dueDate" = some (.str v))
     ∧ (due_date = none →
         lookupF (updBody (update_task_data (.obj fs) task_id project_id title content
           priority start_date due_date repeat_flag none)) "dueDate"
           = lookupF fs "dueDate")
     ∧ (∀ v, repeat_flag = some v →
         lookupF (updBody (update_task_data (.obj fs) task_id project_id title content
           priority start_date due_date repeat_flag none)) "repeatFlag" = some (.str v))
     ∧ (repeat_flag = none →
         lookupF (updBody (update_task_data (.obj fs) task_id project_id title content
           priority start_date due_date repeat_flag none)) "repeatFlag"
           = lookupF fs "repeatFlag")
     ∧ (∀ k, k ∉ fields_to_remove →
         k ∉ (["id", "projectId", "title", "content", "priority",
               "startDate", "dueDate", "repeatFlag"] : List String) →
         lookupF (updBody (update_task_data (.obj fs) task_id project_id title content
           priority start_date due_date repeat_flag none)) k = lookupF fs k))
  ∧ (∀ fs task_id project_id,
       hasKeyF fs "error" = false →
       lookupF fs "id" = some (.str task_id) →
       lookupF fs "projectId" = some (.str project_id) →
       update_task_data (.obj fs) task_id project_id none none none none none none none
         = .inr (fields_to_remove.foldl eraseF fs)
     ∧ (∀ k, k ∉ fields_to_remove →
         lookupF (fields_to_remove.foldl eraseF fs) k = lookupF fs k)
     ∧ (∀ f ∈ fields_to_remove, lookupF (fields_to_remove.foldl eraseF fs) f = none)) := by
  refine ⟨?_, ?_, ?_⟩
  · intro env project_id task_id t env1 hget herrt
    unfold update_task
    rw [hget]
    have hdata : update_task_data t task_id project_id none none none none none none none
        = .inl t := by
      unfold update_task_data
      rw [herrt]
      simp
    simp only []
    rw [hdata]
  · intro fs task_id project_id title content priority start_date due_date repeat_flag herr
    have hq := upd_data_eq fs task_id project_id title content priority
      start_date due_date repeat_flag herr
    rw [hq]
    refine ⟨rfl, ?_, ?_, ?_, ?_, ?_, ?_, ?_, ?_, ?_, ?_, ?_, ?_, ?_, ?_, ?_, ?_⟩
    · intro f hf
      simp only [fields_to_remove, List.mem_cons, List.mem_singleton,
        List.not_mem_nil, or_false] at hf
      rcases hf with rfl | rfl | rfl | rfl | rfl | rfl <;>
        simp [updBody, lookupF_eraseF, fields_to_remove]
    · simp [updBody, lookupF_eraseF, fields_to_remove, lookupF_optIns,
            lookupF_optInsTitle, lookupF_insertF]
    · simp [updBody, lookupF_eraseF, fields_to_remove, lookupF_optIns,
            lookupF_optInsTitle, lookupF_insertF]
    · intro v hv
      subst hv
      simp [updBody, lookupF_eraseF, fields_to_remove, lookupF_optIns,
            lookupF_optInsTitle]
    · intro hv
      subst hv
      simp [updBody, lookupF_eraseF, fields_to_remove, lookupF_optIns,
            lookupF_optInsTitle, lookupF_insertF]
    · intro v hv
      subst hv
      simp [updBody, lookupF_eraseF, fields_to_remove, lookupF_optIns]
    · intro hv
      subst hv
      simp [updBody, lookupF_eraseF, fields_to_remove, lookupF_optIns,
            lookupF_optInsTitle, lookupF_insertF]
    · intro v hv
      subst hv
      simp [updBody, lookupF_eraseF, fields_to_remove, lookupF_optIns]
    · intro hv
      subst hv
      simp [updBody, lookupF_eraseF, fields_to_remove, lookupF_optIns,
            lookupF_optInsTitle, lookupF_insertF]
    · intro v hv
      subst hv
      simp [updBody, lookupF_eraseF, fields_to_remove, lookupF_optIns]
    · intro hv
      subst hv
      simp [updBody, lookupF_eraseF, fields_to_remove, lookupF_optIns,
            lookupF_optInsTitle, lookupF_insertF]
    · intro v hv
      subst hv
      simp [updBody, lookupF_eraseF, fields_to_remove, lookupF_optIns]
    · intro hv
      subst hv
      simp [updBody, lookupF_eraseF, fields_to_remove, lookupF_optIns,
            lookupF_optInsTitle, lookupF_insertF]
    · intro v hv
      subst hv
      simp [updBody, lookupF_eraseF, fields_to_remove, lookupF_optIns]
    · intro hv
      subst hv
      simp [updBody, lookupF_eraseF, fields_to_remove, lookupF_optIns,
            lookupF_optInsTitle, lookupF_insertF]
    · intro k hk1 hk2
      simp only [fields_to_remove, List.mem_cons, List.mem_singleton, not_or] at hk1 hk2
      obtain ⟨n1, n2, n3, n4, n5, n6, -⟩ := hk1
      obtain ⟨m1, m2, m3, m4, m5, m6, m7, m8, -⟩ := hk2
      simp [updBody, lookupF_eraseF, fields_to_remove, lookupF_optIns,
            lookupF_optInsTitle, lookupF_insertF, n1, n2, n3, n4, n5, n6,
            m1, m2, m3, m4, m5, m6, m7, m8]
  · intro fs task_id project_id herr hid hpid
    have hq := upd_data_eq fs task_id project_id none none none none none none herr
    rw [insertF_lookup_eq fs "id" (.str task_id) hid] at hq
    rw [insertF_lookup_eq fs "projectId" (.str project_id) hpid] at hq
    simp only [optIns, optInsTitle, Option.map_none] at hq
    refine ⟨hq, ?_, ?_⟩
    · intro k hk
      exact lookupF_eraseAll_ne fields_to_remove fs k hk
    · intro f hf
      exact lookupF_eraseAll_mem fields_to_remove fs f hf

/-- Witness for C3 at a concrete task: an update with no supplied fields
writes exactly the fetched resource minus the server-managed fields. -/
theorem C3_update_preservation_witness :
    update_task_data
        (.obj [("id", .str "t1"), ("projectId", .str "p1"), ("title", .str "T"),
               ("etag", .str "e"), ("sortOrder", .num 5), ("status", .str "success")])
        "t1" "p1" none none none none none none none
      = .inr [("id", .str "t1"), ("projectId", .str "p1"), ("title", .str "T"),
              ("status", .str "success")] := by
  have h := (C3_update_preservation.2.2
      [("id", .str "t1"), ("projectId", .str "p1"), ("title", .str "T"),
       ("etag", .str "e"), ("sortOrder", .num 5), ("status", .str "success")]
      "t1" "p1" rfl rfl rfl).1
  rw [h]
  rfl


theorem classify_done_status (endpoint : String) (r : HttpResponse) (j : JVal)
    (h : classify_response endpoint r = .done j) (hobj : isObjJ j = true) :
    pyIn "status" j = true := by
  unfold classify_response at h
  split at h
  · injection h with h
    subst h
    rfl
  · split at h
    · injection h with h
      subst h
      rfl
    · split at h
      · split at h
        · cases h
        · injection h with h
          subst h
          rfl
      · split at h
        · injection h with h
          subst h
          rfl
        · split at h
          · injection h with h
            subst h
            rfl
          · split at h
            · split at h
              · split at h
                · injection h with h
                  subst h
                  simpa [pyIn] using (by assumption : hasKeyF _ "status" = true)
                · injection h with h
                  subst h
                  simp [pyIn, hasKeyF, lookupF_insertF_self]
              · injection h with h
                subst h
                rename_i v hne
                cases v <;> simp_all [isObjJ]
            · split at h
              · injection h with h
                subst h
                rfl
              · injection h with h
                subst h
                rfl

theorem make_request_step_status (method endpoint : String) (data : Option JVal)
    (timeout : Nat) (env : TEnv) :
    (∀ j e, make_request_step method endpoint data timeout env = .inl (j, e) →
       isObjJ j = true → pyIn "status" j = true)
  ∧ (∀ j e, make_request_step method endpoint data timeout env = .inr (j, e) →
       pyIn "status" j = true) := by
  have main : ∀ (x : (JVal × TEnv) ⊕ (JVal × TEnv)),
      make_request_step method endpoint data timeout env = x →
      (∀ j e, x = .inl (j, e) → isObjJ j = true → pyIn "status" j = true)
    ∧ (∀ j e, x = .inr (j, e) → pyIn "status" j = true) := by
    intro x hx
    unfold make_request_step at hx
    rw [sendReq_eq] at hx
    cases hev : env.httpTrace env.httpIdx with
    | resp r1 =>
      rw [hev] at hx
      simp only [] at hx
      by_cases h401 : (r1.status == 401) = true
      · rw [if_pos h401] at hx
        rcases hrx : refresh_access_token (advance1 env method endpoint data) with ⟨ok, env2⟩
        rw [hrx] at hx
        cases ok with
        | false =>
          simp only [] at hx
          subst hx
          constructor
          · intro j e hje _
            injection hje with hje
            injection hje with hj he
            subst hj
            rfl
          · intro j e hje
            cases hje
        | true =>
          simp only [sendReq_eq] at hx
          cases hev2 : env2.httpTrace env2.httpIdx with
          | resp r2 =>
            rw [hev2] at hx
            simp only [] at hx
            cases hcl : classify_response endpoint r2 with
            | done j0 =>
              rw [hcl] at hx
              simp only [] at hx
              subst hx
              constructor
              · intro j e hje hobj
                injection hje with hje
                injection hje with hj he
                subst hj
                exact classify_done_status endpoint r2 j0 hcl hobj
              · intro j e hje
                cases hje
            | retryTransient f =>
              rw [hcl] at hx
              simp only [] at hx
              subst hx
              constructor
              · intro j e hje
                cases hje
              · intro j e hje
                injection hje with hje
                injection hje with hj he
                subst hj
                have := (classify_retry_transient endpoint r2 f hcl).2.2
                subst this
                rfl
          | timeoutEv msg =>
            rw [hev2] at hx
            simp only [] at hx
            subst hx
            refine ⟨fun j e hje _ => ?_, fun j e hje => by cases hje⟩
            injection hje with hje
            injection hje with hj he
            subst hj
            rfl
          | connErrorEv msg =>
            rw [hev2] at hx
            simp only [] at hx
            subst hx
            refine ⟨fun j e hje _ => ?_, fun j e hje => by cases hje⟩
            injection hje with hje
            injection hje with hj he
            subst hj
            rfl
          | reqExcEv msg =>
            rw [hev2] at hx
            simp only [] at hx
            subst hx
            refine ⟨fun j e hje _ => ?_, fun j e hje => by cases hje⟩
            injection hje with hje
            injection hje with hj he
            subst hj
            rfl
          | otherExcEv msg =>
            rw [hev2] at hx
            simp only [] at hx
            subst hx
            refine ⟨fun j e hje _ => ?_, fun j e hje => by cases hje⟩
            injection hje with hje
            injection hje with hj he
            subst hj
            rfl
      · rw [if_neg (by simpa using h401)] at hx
        cases hcl : classify_response endpoint r1 with
        | done j0 =>
          rw [hcl] at hx
          simp only [] at hx
          subst hx
          constructor
          · intro j e hje hobj
            injection hje with hje
            injection hje with hj he
            subst hj
            exact classify_done_status endpoint r1 j0 hcl hobj
          · intro j e hje
            cases hje
        | retryTransient f =>
          rw [hcl] at hx
          simp only [] at hx
          subst hx
          constructor
          · intro j e hje
            cases hje
          · intro j e hje
            injection hje with hje
            injection hje with hj he
            subst hj
            have := (classify_retry_transient endpoint r1 f hcl).2.2
            subst this
            rfl
    | timeoutEv msg =>
      rw [hev] at hx
      simp only [] at hx
      subst hx
      refine ⟨fun j e hje _ => ?_, fun j e hje => by cases hje⟩
      injection hje with hje
      injection hje with hj he
      subst hj
      rfl
    | connErrorEv msg =>
      rw [hev] at hx
      simp only [] at hx
      subst hx
      refine ⟨fun j e hje _ => ?_, fun j e hje => by cases hje⟩
      injection hje with hje
      injection hje with hj he
      subst hj
      rfl
    | reqExcEv msg =>
      rw [hev] at hx
      simp only [] at hx
      subst hx
      refine ⟨fun j e hje _ => ?_, fun j e hje => by cases hje⟩
      injection hje with hje
      injection hje with hj he
      subst hj
      rfl
    | otherExcEv msg =>
      rw [hev] at hx
      simp only [] at hx
      subst hx
      refine ⟨fun j e hje _ => ?_, fun j e hje => by cases hje⟩
      injection hje with hje
      injection hje with hj he
      subst hj
      rfl
  exact ⟨fun j e h => (main _ rfl).1 j e h, fun j e h => (main _ rfl).2 j e h⟩


theorem make_requestGo_status (method endpoint : String) (data : Option JVal)
    (timeout : Nat) : ∀ (fuel : Nat) (env : TEnv),
    isObjJ (make_requestGo method endpoint data timeout fuel env).1 = true →
    pyIn "status" (make_requestGo method endpoint data timeout fuel env).1 = true := by
  intro fuel
  induction fuel with
  | zero =>
    intro env hobj
    rw [make_requestGo_zero] at hobj ⊢
    cases hs : make_request_step method endpoint data timeout env with
    | inl p =>
      obtain ⟨j, e⟩ := p
      rw [hs] at hobj
      exact (make_request_step_status method endpoint data timeout env).1 j e hs
        (by simpa using hobj)
    | inr p =>
      obtain ⟨j, e⟩ := p
      exact (make_request_step_status method endpoint data timeout env).2 j e hs
  | succ m ih =>
    intro env hobj
    rw [make_requestGo_succ] at hobj ⊢
    cases hs : make_request_step method endpoint data timeout env with
    | inl p =>
      obtain ⟨j, e⟩ := p
      rw [hs] at hobj
      exact (make_request_step_status method endpoint data timeout env).1 j e hs
        (by simpa using hobj)
    | inr p =>
      obtain ⟨j, e⟩ := p
      rw [hs] at hobj
      exact ih e (by simpa using hobj)


/-- C10: every dictionary-shaped result of the transport carries a status
key; a 200 response whose dictionary body lacks one gets status success
appended; and since update_task copies the fetched task wholesale and
status is not among the stripped server-managed fields, the synthetic
field ends up in the update write body. -/
theorem C10_status_injection :
    (∀ method endpoint data timeout (b : Bool) env,
       isObjJ (make_request method endpoint data timeout b env).1 = true →
       pyIn "status" (make_request method endpoint data timeout b env).1 = true)
  ∧ (∀ method endpoint data timeout (b : Bool) env r fs,
       env.httpTrace env.httpIdx = .resp r → r.status = 200 →
       r.jsonBody = some (.obj fs) → lookupF fs "status" = none →
       (make_request method endpoint data timeout b env).1
         = .obj (insertF fs "status" (.str "success")))
  ∧ (∀ fs task_id project_id, lookupF fs "error" = none → lookupF fs "status" = none →
       (update_task_data (.obj (insertF fs "status" (.str "success"))) task_id project_id
           none none none none none none none).isRight = true
     ∧ lookupF (updBody (update_task_data (.obj (insertF fs "status" (.str "success")))
           task_id project_id none none none none none none none)) "status"
         = some (.str "success")
     ∧ "status" ∉ fields_to_remove) := by
  refine ⟨?_, ?_, ?_⟩
  · intro method endpoint data timeout b env hobj
    unfold make_request at hobj ⊢
    exact make_requestGo_status method endpoint data timeout (cond b 1 0) env hobj
  · intro method endpoint data timeout b env r fs hev h200 hb hst
    have hkey : hasKeyF fs "status" = false := by
      unfold hasKeyF
      rw [hst]
      rfl
    unfold make_request
    rw [make_requestGo_plainOk method endpoint data timeout (cond b 1 0) env r fs hev h200 hb]
    simp [hkey]
  · intro fs task_id project_id herr hst
    have herr2 : hasKeyF (insertF fs "status" (.str "success")) "error" = false := by
      rw [hasKeyF_insertF_ne fs "status" "error" (.str "success") (by decide)]
      unfold hasKeyF
      rw [herr]
      rfl
    have hq := upd_data_eq (insertF fs "status" (.str "success")) task_id project_id
      none none none none none none herr2
    refine ⟨by rw [hq]; rfl, ?_, by decide⟩
    rw [hq]
    simp [updBody, lookupF_eraseF, fields_to_remove, lookupF_optIns, lookupF_optInsTitle,
          lookupF_insertF]

/-- Witness for C10: a concrete 200 dictionary body without a status key
comes back with status success appended, and that field survives into the
update write body. -/
theorem C10_status_injection_witness :
    (make_request "GET" "/p" none 30 true (mkEnv trC10)).1
      = .obj [("title", .str "T"), ("status", .str "success")]
  ∧ lookupF (updBody (update_task_data
        (.obj (insertF [("title", JVal.str "T")] "status" (.str "success")))
        "t1" "p1" none none none none none none none)) "status"
      = some (.str "success") := by
  have h1 := C10_status_injection.2.1 "GET" "/p" none 30 true (mkEnv trC10)
    (respN 200 (some (.obj [("title", .str "T")])) "x") [("title", JVal.str "T")]
    rfl rfl rfl rfl
  have h2 := (C10_status_injection.2.2 [("title", JVal.str "T")] "t1" "p1" rfl rfl).2.1
  exact ⟨by rw [h1]; rfl, h2⟩


theorem create_task_plainOk (t pid c sd dd pr ad rf tg : JVal) (env : TEnv)
    (r : HttpResponse) (fs : List (String × JVal))
    (hev : env.httpTrace env.httpIdx = .resp r) (h200 : r.status = 200)
    (hb : r.jsonBody = some (.obj fs)) (herr : hasKeyF fs "error" = false) :
    pyIn "error" (create_task t pid c sd dd pr ad rf tg env).1 = false
  ∧ (create_task t pid c sd dd pr ad rf tg env).2.httpTrace = env.httpTrace
  ∧ (create_task t pid c sd dd pr ad rf tg env).2.httpIdx = env.httpIdx + 1 := by
  simp only [create_task, make_request, cond]
  rw [make_requestGo_plainOk "POST" "/task" _ 30 1 env r fs hev h200 hb]
  refine ⟨?_, rfl, rfl⟩
  by_cases hst : hasKeyF fs "status" = true
  · simpa [hst, pyIn] using herr
  · have hstf : hasKeyF fs "status" = false := by simpa using hst
    have hne := hasKeyF_insertF_ne fs "status" "error" (.str "success") (by decide)
    simp only [hstf, Bool.false_eq_true, if_false]
    simpa [pyIn, hne] using herr

theorem fallback_ok (items : List JVal) : ∀ (i : Nat) (env : TEnv),
    (∀ k, env.httpIdx ≤ k → plainOkE (env.httpTrace k)) →
    (create_tasks_fallback items i env).2.1 = items.length
  ∧ (create_tasks_fallback items i env).2.2.httpTrace = env.httpTrace
  ∧ (create_tasks_fallback items i env).2.2.httpIdx = env.httpIdx + items.length := by
  induction items with
  | nil =>
    intro i env h
    exact ⟨rfl, rfl, rfl⟩
  | cons t rest ih =>
    intro i env h
    obtain ⟨r, fs, hev, h200, hb, herr⟩ := h env.httpIdx (le_refl _)
    have hct := create_task_plainOk (pyGet t "title" .null) (pyGet t "project_id" .null)
      (pyGet t "content" .null) (pyGet t "start_date" .null) (pyGet t "due_date" .null)
      (pyGet t "priority" (.num 0)) (pyGet t "is_all_day" (.bool false))
      (pyGet t "repeat_flag" .null) (pyGet t "tags" .null) env r fs hev h200 hb herr
    unfold create_tasks_fallback
    rcases hc : create_task (pyGet t "title" .null) (pyGet t "project_id" .null)
      (pyGet t "content" .null) (pyGet t "start_date" .null) (pyGet t "due_date" .null)
      (pyGet t "priority" (.num 0)) (pyGet t "is_all_day" (.bool false))
      (pyGet t "repeat_flag" .null) (pyGet t "tags" .null) env with ⟨result, env1⟩
    rw [hc] at hct
    obtain ⟨hres, htr1, hidx1⟩ := hct
    simp only at hres htr1 hidx1
    have hstep : ∀ k, env1.httpIdx ≤ k → plainOkE (env1.httpTrace k) := by
      intro k hk
      rw [hidx1] at hk
      rw [htr1]
      exact h k (by omega)
    have hih := ih (i + 1) env1 hstep
    rcases hrec : create_tasks_fallback rest (i + 1) env1 with ⟨entries, cnt, env2⟩
    rw [hrec] at hih
    obtain ⟨hcnt, htr2, hidx2⟩ := hih
    simp only at hcnt htr2 hidx2
    simp only []
    rw [hrec]
    simp only [List.length_cons]
    refine ⟨?_, ?_, ?_⟩
    · rw [hres, hcnt]
      simp [Nat.add_comm]
    · rw [htr2, htr1]
    · rw [hidx2, hidx1]
      omega

theorem fallback_cnt_le (items : List JVal) : ∀ (i : Nat) (env : TEnv),
    (create_tasks_fallback items i env).2.1 ≤ items.length := by
  induction items with
  | nil =>
    intro i env
    exact Nat.le_refl 0
  | cons t rest ih =>
    intro i env
    unfold create_tasks_fallback
    rcases hc : create_task (pyGet t "title" .null) (pyGet t "project_id" .null)
      (pyGet t "content" .null) (pyGet t "start_date" .null) (pyGet t "due_date" .null)
      (pyGet t "priority" (.num 0)) (pyGet t "is_all_day" (.bool false))
      (pyGet t "repeat_flag" .null) (pyGet t "tags" .null) env with ⟨result, env1⟩
    rcases hrec : create_tasks_fallback rest (i + 1) env1 with ⟨entries, cnt, env2⟩
    have hle := ih (i + 1) env1
    rw [hrec] at hle
    simp only at hle
    simp only []
    rw [hrec]
    simp only [List.length_cons]
    cases pyIn "error" result <;> simp <;> omega

theorem validate_spot (items : List JVal) : ∀ (base i : Nat) (t : JVal),
    items.get? i = some t →
    (∀ j tj, j < i → items.get? j = some tj → itemValid tj = true) →
    itemValid t = false →
    validate_tasks items base = some (invalidObjFor t (base + i)) := by
  induction items with
  | nil =>
    intro base i t h
    simp at h
  | cons x rest ih =>
    intro base i t hget hvalid hbad
    cases i with
    | zero =>
      have hx : x = t := by simpa using hget
      subst hx
      cases x with
      | obj fs =>
        have hbad2 : (hasKeyF fs "title" && hasKeyF fs "project_id") = false := hbad
        by_cases h1 : hasKeyF fs "title" = true
        · have h2 : hasKeyF fs "project_id" = false := by
            rw [h1] at hbad2
            simpa using hbad2
          simp [validate_tasks, invalidObjFor, h1, h2]
        · have h1f : hasKeyF fs "title" = false := by simpa using h1
          simp [validate_tasks, invalidObjFor, h1f]
      | str sv => simp [validate_tasks, invalidObjFor]
      | num nv => simp [validate_tasks, invalidObjFor]
      | bool bv => simp [validate_tasks, invalidObjFor]
      | null => simp [validate_tasks, invalidObjFor]
      | arr av => simp [validate_tasks, invalidObjFor]
    | succ i2 =>
      have hvx : itemValid x = true := hvalid 0 x (Nat.succ_pos i2) rfl
      cases x with
      | obj fs =>
        have hvx2 : (hasKeyF fs "title" && hasKeyF fs "project_id") = true := hvx
        obtain ⟨h1, h2⟩ := by simpa using hvx2
        have hrec := ih (base + 1) i2 t (by simpa using hget)
          (fun j tj hj hg => hvalid (j + 1) tj (by omega) (by simpa using hg)) hbad
        have harith : base + 1 + i2 = base + (i2 + 1) := by omega
        rw [harith] at hrec
        simp [validate_tasks, h1, h2, hrec]
      | str sv => simp [itemValid] at hvx
      | num nv => simp [itemValid] at hvx
      | bool bv => simp [itemValid] at hvx
      | null => simp [itemValid] at hvx
      | arr av => simp [itemValid] at hvx

theorem invalidObjFor_names_index (t : JVal) (i : Nat) :
    strContains (jvalStrOf (pyGet (invalidObjFor t i) "error" (.str "")))
      (toString i) = true := by
  cases t with
  | obj fs =>
    unfold invalidObjFor
    by_cases h1 : hasKeyF fs "title" = true
    · have hmsg : pyGet (missing_field_obj i "project_id") "error" (.str "")
          = .str ("Invalid task at position " ++ toString i ++
              ": missing required field \x27" ++ "project_id" ++ "\x27") := rfl
      simp only [h1, Bool.not_true, Bool.false_eq_true, if_false, hmsg, jvalStrOf]
      have := strContains_middle "Invalid task at position " (toString i)
        (": missing required field \x27" ++ "project_id" ++ "\x27")
      simpa [String.append_assoc] using this
    · have h1f : hasKeyF fs "title" = false := by simpa using h1
      have hmsg : pyGet (missing_field_obj i "title") "error" (.str "")
          = .str ("Invalid task at position " ++ toString i ++
              ": missing required field \x27" ++ "title" ++ "\x27") := rfl
      simp only [h1f, Bool.not_false, if_true, hmsg, jvalStrOf]
      have := strContains_middle "Invalid task at position " (toString i)
        (": missing required field \x27" ++ "title" ++ "\x27")
      simpa [String.append_assoc] using this
  | str sv =>
    have := strContains_middle "Invalid task at position " (toString i)
      ": must be a dictionary"
    simpa [invalidObjFor, invalid_format_item_obj, pyGet, lookupF, jvalStrOf,
      String.append_assoc] using this
  | num nv =>
    have := strContains_middle "Invalid task at position " (toString i)
      ": must be a dictionary"
    simpa [invalidObjFor, invalid_format_item_obj, pyGet, lookupF, jvalStrOf,
      String.append_assoc] using this
  | bool bv =>
    have := strContains_middle "Invalid task at position " (toString i)
      ": must be a dictionary"
    simpa [invalidObjFor, invalid_format_item_obj, pyGet, lookupF, jvalStrOf,
      String.append_assoc] using this
  | null =>
    have := strContains_middle "Invalid task at position " (toString i)
      ": must be a dictionary"
    simpa [invalidObjFor, invalid_format_item_obj, pyGet, lookupF, jvalStrOf,
      String.append_assoc] using this
  | arr av =>
    have := strContains_middle "Invalid task at position " (toString i)
      ": must be a dictionary"
    simpa [invalidObjFor, invalid_format_item_obj, pyGet, lookupF, jvalStrOf,
      String.append_assoc] using this
/-- C6: batch create validates every item for the required fields before
any network call and aborts on the first invalid item with a failure
naming its index; when the bulk endpoint fails and every individual
fallback create succeeds the final status is success with
successful_count equal to total_count; with valid input the final status
is never the failed one, and the fallback success count never exceeds the
item count. -/
theorem C6_batch_create :
    (∀ items env e, items.isEmpty = false → validate_tasks items 0 = some e →
       create_tasks (.arr items) env = (e, env))
  ∧ (∀ items (i : Nat) t env, items.get? i = some t →
       (∀ j tj, j < i → items.get? j = some tj → itemValid tj = true) →
       itemValid t = false →
       create_tasks (.arr items) env = (invalidObjFor t i, env)
     ∧ strContains (jvalStrOf (pyGet (invalidObjFor t i) "error" (.str "")))
         (toString i) = true)
  ∧ (∀ items env r, items.isEmpty = false → validate_tasks items 0 = none →
       env.httpTrace env.httpIdx = .resp r → 500 ≤ r.status →
       transientStatus r.status = false →
       (∀ k, env.httpIdx + 1 ≤ k → plainOkE (env.httpTrace k)) →
       pyGet (create_tasks (.arr items) env).1 "status" .null = .str "success"
     ∧ pyGet (create_tasks (.arr items) env).1 "successful_count" .null
         = .num items.length
     ∧ pyGet (create_tasks (.arr items) env).1 "total_count" .null
         = .num items.length)
  ∧ (∀ items env, items.isEmpty = false → validate_tasks items 0 = none →
       pyGet (create_tasks (.arr items) env).1 "status" .null = .str "success"
     ∨ pyGet (create_tasks (.arr items) env).1 "status" .null = .str "partial")
  ∧ (∀ items (i : Nat) env, (create_tasks_fallback items i env).2.1 ≤ items.length) := by
  have habort : ∀ (items : List JVal) (env : TEnv) (e : JVal),
      items.isEmpty = false → validate_tasks items 0 = some e →
      create_tasks (.arr items) env = (e, env) := by
    intro items env e hne hval
    unfold create_tasks
    simp only []
    rw [hne]
    simp only [Bool.false_eq_true, if_false]
    rw [hval]
  refine ⟨habort, ?_, ?_, ?_, fallback_cnt_le⟩
  · intro items i t env hget hvalid hbad
    have hne : items.isEmpty = false := by
      cases items with
      | nil => simp at hget
      | cons a l => rfl
    have hval := validate_spot items 0 i t hget hvalid hbad
    simp only [Nat.zero_add] at hval
    exact ⟨habort items env (invalidObjFor t i) hne hval,
           invalidObjFor_names_index t i⟩
  · intro items env r hne hval hev h5 hnt hall
    have h401 : (r.status == 401) = false := by simp; omega
    have hdone : classify_response "/batch/task" r = .done (server_error_obj r) := by
      rw [classify_5xx "/batch/task" r h5, hnt]
      simp
    have hbulk := make_request_of_step_inl "POST" "/batch/task"
      (some (JVal.obj [("add", JVal.arr (items.map format_task))])) 30 true env _ _
      (make_request_step_done "POST" "/batch/task"
        (some (JVal.obj [("add", JVal.arr (items.map format_task))])) 30 env r _
        hev h401 hdone)
    unfold create_tasks
    simp only []
    rw [hne]
    simp only [Bool.false_eq_true, if_false]
    rw [hval]
    simp only []
    rw [hbulk]
    simp only []
    have hcond : (!pyIn "error" (server_error_obj r)
        && !statusIsFailed (server_error_obj r)) = false := rfl
    rw [hcond]
    simp only [Bool.false_eq_true, if_false]
    have hall2 : ∀ k, (advance1 env "POST" "/batch/task"
        (some (JVal.obj [("add", JVal.arr (items.map format_task))]))).httpIdx ≤ k →
        plainOkE ((advance1 env "POST" "/batch/task"
          (some (JVal.obj [("add", JVal.arr (items.map format_task))]))).httpTrace k) :=
      fun k hk => hall k hk
    have hfb := fallback_ok items 0 (advance1 env "POST" "/batch/task"
      (some (JVal.obj [("add", JVal.arr (items.map format_task))]))) hall2
    rcases hrec : create_tasks_fallback items 0 (advance1 env "POST" "/batch/task"
      (some (JVal.obj [("add", JVal.arr (items.map format_task))]))) with ⟨results, cnt, env2⟩
    rw [hrec] at hfb
    obtain ⟨hcnt, -, -⟩ := hfb
    simp only at hcnt
    try rw [hrec]
    simp only []
    subst hcnt
    refine ⟨?_, rfl, rfl⟩
    simp [pyGet, lookupF]
  · intro items env hne hval
    unfold create_tasks
    simp only []
    rw [hne]
    simp only [Bool.false_eq_true, if_false]
    rw [hval]
    simp only []
    rcases hmk : make_request "POST" "/batch/task"
      (some (JVal.obj [("add", JVal.arr (items.map format_task))])) 30 true env
      with ⟨response, env1⟩
    try rw [hmk]
    simp only []
    by_cases hcond : (!pyIn "error" response && !statusIsFailed response) = true
    · rw [if_pos hcond]
      exact Or.inl rfl
    · rw [if_neg hcond]
      rcases hrec : create_tasks_fallback items 0 env1 with ⟨results, cnt, env2⟩
      try rw [hrec]
      simp only []
      by_cases hlt : cnt < items.length
      · exact Or.inr (by simp [pyGet, lookupF, hlt])
      · exact Or.inl (by simp [pyGet, lookupF, hlt])


/-- Witness for C6: bulk endpoint answers 500, both individual creates
succeed, giving status success with successful_count = total_count = 2. -/
theorem C6_batch_create_witness :
    pyGet (create_tasks (.arr [.obj [("title", .str "a"), ("project_id", .str "p")],
        .obj [("title", .str "b"), ("project_id", .str "p")]]) (mkEnv trC6)).1
        "status" .null = .str "success"
  ∧ pyGet (create_tasks (.arr [.obj [("title", .str "a"), ("project_id", .str "p")],
        .obj [("title", .str "b"), ("project_id", .str "p")]]) (mkEnv trC6)).1
        "successful_count" .null = .num 2 := by
  have h := C6_batch_create.2.2.1
    [.obj [("title", .str "a"), ("project_id", .str "p")],
     .obj [("title", .str "b"), ("project_id", .str "p")]]
    (mkEnv trC6) (respN 500 (some (.obj [("error", .str "ise")])) "x")
    rfl rfl rfl (by decide) (by decide)
    (fun k hk => by
      match k with
      | 0 => exact absurd hk (by decide)
      | Nat.succ n =>
        exact ⟨respN 200 (some (.obj [("title", JVal.str "T")])) "x",
               [("title", JVal.str "T")], rfl, rfl, rfl, rfl⟩)
  exact ⟨h.1, h.2.1⟩

theorem countDel_append (l : List SentReq) (x : SentReq) :
    countDel (l ++ [x]) = countDel l + (if x.method == "DELETE" then 1 else 0) := by
  unfold countDel
  rw [List.filter_append]
  cases hx : (x.method == "DELETE") <;> simp [List.filter, hx]

theorem countDel_advance1 (env : TEnv) (method endpoint : String) (data : Option JVal) :
    countDel (advance1 env method endpoint data).sent
      = countDel env.sent + (if method == "DELETE" then 1 else 0) := by
  simp [advance1, countDel_append, mkReq]

theorem delete_task_zero (pid tid : String) (env : TEnv) :
    delete_task pid tid 0 env =
      (match delete_task_step pid tid env with
       | .inl res => res
       | .inr res => res) := by
  rw [delete_task]

theorem delete_task_succ (pid tid : String) (m : Nat) (env : TEnv) :
    delete_task pid tid (Nat.succ m) env =
      (match delete_task_step pid tid env with
       | .inl res => res
       | .inr (_, env3) => delete_task pid tid m env3) := by
  rw [delete_task]

theorem delete_task_step_count (pid tid : String) (env : TEnv)
    (hall : ∀ k, oneShotE (env.httpTrace k)) :
    countDel (stepEnvOf (delete_task_step pid tid env)).sent ≤ countDel env.sent + 1
  ∧ (stepEnvOf (delete_task_step pid tid env)).httpTrace = env.httpTrace := by
  obtain ⟨j1, h1⟩ := make_requestGo_oneShot "GET" ("/project/" ++ pid) none 30 1 env (hall _)
  have hg1 : get_project pid env = (j1, advance1 env "GET" ("/project/" ++ pid) none) := by
    unfold get_project make_request
    simp only [cond]
    exact h1
  unfold delete_task_step
  rw [hg1]
  simp only []
  by_cases he1 : pyIn "error" j1 = true
  · rw [if_pos he1]
    refine ⟨?_, rfl⟩
    simp only [stepEnvOf]
    rw [countDel_advance1]
    simp
  · rw [if_neg he1]
    obtain ⟨j2, h2⟩ := make_requestGo_oneShot "GET" ("/project/" ++ pid ++ "/task/" ++ tid)
      none 30 1 (advance1 env "GET" ("/project/" ++ pid) none) (hall _)
    have hg2 : get_task pid tid (advance1 env "GET" ("/project/" ++ pid) none)
        = (j2, advance1 (advance1 env "GET" ("/project/" ++ pid) none) "GET"
            ("/project/" ++ pid ++ "/task/" ++ tid) none) := by
      unfold get_task make_request
      simp only [cond]
      exact h2
    rw [hg2]
    simp only []
    by_cases he2 : pyIn "error" j2 = true
    · rw [if_pos he2]
      refine ⟨?_, rfl⟩
      simp only [stepEnvOf]
      rw [countDel_advance1, countDel_advance1]
      simp
    · rw [if_neg he2]
      obtain ⟨j3, h3⟩ := make_requestGo_oneShot "DELETE"
        ("/project/" ++ pid ++ "/task/" ++ tid) none 30 1
        (advance1 (advance1 env "GET" ("/project/" ++ pid) none) "GET"
          ("/project/" ++ pid ++ "/task/" ++ tid) none) (hall _)
      have hg3 : make_request "DELETE" ("/project/" ++ pid ++ "/task/" ++ tid) none 30 true
          (advance1 (advance1 env "GET" ("/project/" ++ pid) none) "GET"
            ("/project/" ++ pid ++ "/task/" ++ tid) none)
          = (j3, advance1 (advance1 (advance1 env "GET" ("/project/" ++ pid) none) "GET"
              ("/project/" ++ pid ++ "/task/" ++ tid) none) "DELETE"
              ("/project/" ++ pid ++ "/task/" ++ tid) none) := by
        unfold make_request
        simp only [cond]
        exact h3
      rw [hg3]
      simp only []
      have hcd : countDel (advance1 (advance1 (advance1 env "GET" ("/project/" ++ pid) none)
          "GET" ("/project/" ++ pid ++ "/task/" ++ tid) none) "DELETE"
          ("/project/" ++ pid ++ "/task/" ++ tid) none).sent = countDel env.sent + 1 := by
        rw [countDel_advance1, countDel_advance1, countDel_advance1]
        simp
      by_cases he3 : pyIn "error" j3 = true
      · rw [if_pos he3]
        by_cases hrec : isRecoverable (jvalStrOf (pyGet j3 "error" (.str ""))) = true
        · rw [if_pos hrec]
          exact ⟨by simp only [stepEnvOf]; rw [hcd], rfl⟩
        · rw [if_neg hrec]
          exact ⟨by simp only [stepEnvOf]; rw [hcd], rfl⟩
      · rw [if_neg he3]
        obtain ⟨j4, h4⟩ := make_requestGo_oneShot "GET"
          ("/project/" ++ pid ++ "/task/" ++ tid) none 30 1
          (advance1 (advance1 (advance1 env "GET" ("/project/" ++ pid) none) "GET"
            ("/project/" ++ pid ++ "/task/" ++ tid) none) "DELETE"
            ("/project/" ++ pid ++ "/task/" ++ tid) none) (hall _)
        have hg4 : get_task pid tid
            (advance1 (advance1 (advance1 env "GET" ("/project/" ++ pid) none) "GET"
              ("/project/" ++ pid ++ "/task/" ++ tid) none) "DELETE"
              ("/project/" ++ pid ++ "/task/" ++ tid) none)
            = (j4, advance1 (advance1 (advance1 (advance1 env "GET" ("/project/" ++ pid) none)
                "GET" ("/project/" ++ pid ++ "/task/" ++ tid) none) "DELETE"
                ("/project/" ++ pid ++ "/task/" ++ tid) none) "GET"
                ("/project/" ++ pid ++ "/task/" ++ tid) none) := by
          unfold get_task make_request
          simp only [cond]
          exact h4
        rw [hg4]
        simp only []
        have hcd4 : countDel (advance1 (advance1 (advance1 (advance1 env "GET"
            ("/project/" ++ pid) none) "GET" ("/project/" ++ pid ++ "/task/" ++ tid) none)
            "DELETE" ("/project/" ++ pid ++ "/task/" ++ tid) none) "GET"
            ("/project/" ++ pid ++ "/task/" ++ tid) none).sent = countDel env.sent + 1 := by
          rw [countDel_advance1, countDel_advance1, countDel_advance1, countDel_advance1]
          simp
        by_cases hv1 : (pyIn "error" j4 &&
            strContains (jvalStrOf (pyGet j4 "error" (.str ""))) "404") = true
        · rw [if_pos hv1]
          exact ⟨by simp only [stepEnvOf]; rw [hcd4], rfl⟩
        · rw [if_neg hv1]
          by_cases hv2 : pyIn "error" j4 = true
          · rw [if_pos hv2]
            exact ⟨by simp only [stepEnvOf]; rw [hcd4], rfl⟩
          · rw [if_neg hv2]
            exact ⟨by simp only [stepEnvOf]; rw [hcd4], rfl⟩


/-- C7: a delete whose DELETE call errors with a message matching a
recoverable pattern and a positive budget re-runs the whole round with
the budget decremented, exactly once per budget unit; under one-shot
traces the number of DELETE requests issued is bounded by the initial
budget plus one, so the recursion is bounded by the budget and always
terminates. -/
theorem C7_delete_retry_bounded :
    (∀ (project_id task_id : String) (m : Nat) (env : TEnv) project env1 task env2
        result env3,
       get_project project_id env = (project, env1) →
       pyIn "error" project = false →
       get_task project_id task_id env1 = (task, env2) →
       pyIn "error" task = false →
       make_request "DELETE" ("/project/" ++ project_id ++ "/task/" ++ task_id)
         none 30 true env2 = (result, env3) →
       pyIn "error" result = true →
       isRecoverable (jvalStrOf (pyGet result "error" (.str ""))) = true →
       delete_task project_id task_id (m + 1) env = delete_task project_id task_id m env3)
  ∧ (∀ (project_id task_id : String) (n : Nat) (env : TEnv),
       (∀ k, oneShotE (env.httpTrace k)) →
       countDel ((delete_task project_id task_id n env).2.sent)
         ≤ countDel env.sent + (n + 1)) := by
  constructor
  · intro pid tid m env project env1 task env2 result env3 hproj hperr htask hterr
      hdel hre hrec
    have hstep : delete_task_step pid tid env =
        .inr (api_error_obj result
          (.obj [("title", pyGet task "title" (.str "Unknown")),
                 ("id", .str tid), ("project_id", .str pid),
                 ("project_name", pyGet project "name" (.str "Unknown Project"))]),
          env3) := by
      unfold delete_task_step
      rw [hproj]
      simp only []
      rw [if_neg (by simp [hperr])]
      rw [htask]
      simp only []
      rw [if_neg (by simp [hterr])]
      rw [hdel]
      simp only []
      rw [if_pos hre, if_pos hrec]
    rw [delete_task_succ, hstep]
  · intro pid tid n
    induction n with
    | zero =>
      intro env hall
      rw [delete_task_zero]
      have hc := delete_task_step_count pid tid env hall
      cases hs : delete_task_step pid tid env with
      | inl p =>
        obtain ⟨j, e⟩ := p
        rw [hs] at hc
        simp only [stepEnvOf] at hc
        simpa using hc.1
      | inr p =>
        obtain ⟨j, e⟩ := p
        rw [hs] at hc
        simp only [stepEnvOf] at hc
        simpa using hc.1
    | succ m ih =>
      intro env hall
      rw [delete_task_succ]
      have hc := delete_task_step_count pid tid env hall
      cases hs : delete_task_step pid tid env with
      | inl p =>
        obtain ⟨j, e⟩ := p
        rw [hs] at hc
        simp only [stepEnvOf] at hc
        have h1 := hc.1
        simp only []
        omega
      | inr p =>
        obtain ⟨j, e⟩ := p
        rw [hs] at hc
        simp only [stepEnvOf] at hc
        have hall2 : ∀ k, oneShotE (e.httpTrace k) := by
          intro k
          rw [hc.2]
          exact hall k
        have hb := ih e hall2
        have h1 := hc.1
        simp only []
        omega

/-- Witness for C7 at a concrete trace whose DELETE call answers 500: the
round is re-run once with the spent budget, and at most two DELETE
requests are issued. -/
theorem C7_delete_retry_bounded_witness :
    delete_task "p" "t" (0 + 1) (mkEnv trC7) =
      delete_task "p" "t" 0
        { mkEnv trC7 with
          httpIdx := 3,
          sent := [mkReq "GET" "/project/p" (some "tok0") none,
                   mkReq "GET" "/project/p/task/t" (some "tok0") none,
                   mkReq "DELETE" "/project/p/task/t" (some "tok0") none] }
  ∧ countDel ((delete_task "p" "t" 1 (mkEnv trC7)).2.sent)
      ≤ countDel (mkEnv trC7).sent + (1 + 1) := by
  have hall : ∀ k, oneShotE ((mkEnv trC7).httpTrace k) := by
    intro k
    match k with
    | 0 => exact ⟨by decide, by decide⟩
    | 1 => exact ⟨by decide, by decide⟩
    | 2 => exact ⟨by decide, by decide⟩
    | 3 => exact ⟨by decide, by decide⟩
    | 4 => exact ⟨by decide, by decide⟩
    | 5 => exact ⟨by decide, by decide⟩
    | (n + 6) => exact ⟨by decide, by decide⟩
  refine ⟨?_, C7_delete_retry_bounded.2 "p" "t" 1 (mkEnv trC7) hall⟩
  exact C7_delete_retry_bounded.1 "p" "t" 0 (mkEnv trC7)
    (.obj [("name", .str "P"), ("status", .str "success")])
    { mkEnv trC7 with
      httpIdx := 1,
      sent := [mkReq "GET" "/project/p" (some "tok0") none] }
    (.obj [("title", .str "T"), ("status", .str "success")])
    { mkEnv trC7 with
      httpIdx := 2,
      sent := [mkReq "GET" "/project/p" (some "tok0") none,
               mkReq "GET" "/project/p/task/t" (some "tok0") none] }
    (server_error_obj (respN 500 (some (.obj [("error", .str "ise")])) "x"))
    { mkEnv trC7 with
      httpIdx := 3,
      sent := [mkReq "GET" "/project/p" (some "tok0") none,
               mkReq "GET" "/project/p/task/t" (some "tok0") none,
               mkReq "DELETE" "/project/p/task/t" (some "tok0") none] }
    rfl rfl rfl rfl rfl rfl rfl

end TickTickSpec
